import Mathlib

/-!
Verification of the post-tour read-only gate and the survey response engine of
the benchmarktours backend, over a shallow embedding of the TypeScript source
(`src/services/CleanupService.ts` gate functions and
`src/api/surveys/surveyResponse.service.ts`) together with the database
constraints declared in the SQL migrations.

Timestamps are modelled as `Int` (milliseconds since epoch); SQL rows as Lean
structures; each table as a `List` of rows in declaration order (Postgres id
order for these append-only workloads); `NULL`able columns as `Option`.
-/

deriving instance DecidableEq for Except

namespace BenchmarkTours

/-! ## Read-only gate: data model

Only the columns the gate queries consult are modelled.  Each row structure
mirrors one table joined by the gate's SQL. -/

structure TourRow where
  id : Nat
  end_date : Int
  deriving DecidableEq

structure ActivityRow where
  id : Nat
  tour_id : Nat
  deriving DecidableEq

structure NoteRow where
  id : Nat
  activity_id : Nat
  deriving DecidableEq

structure DiscussionRow where
  id : Nat
  tour_id : Nat
  deriving DecidableEq

structure MessageRow where
  id : Nat
  discussion_id : Nat
  deriving DecidableEq

structure ActivityQuestionRow where
  id : Nat
  activity_id : Nat
  deriving DecidableEq

structure TeamRow where
  id : Nat
  discussion_activity_id : Nat
  deriving DecidableEq

structure TeamNoteRow where
  id : Nat
  team_id : Nat
  deriving DecidableEq

structure DiscussionQuestionRow where
  id : Nat
  discussion_activity_id : Nat
  deriving DecidableEq

structure GateDB where
  tours : List TourRow
  activities : List ActivityRow
  notes : List NoteRow
  discussions : List DiscussionRow
  discussion_messages : List MessageRow
  activity_questions : List ActivityQuestionRow
  discussion_teams : List TeamRow
  discussion_team_notes : List TeamNoteRow
  discussion_questions : List DiscussionQuestionRow
  deriving DecidableEq

def findTour (db : GateDB) (tid : Nat) : Option TourRow :=
  db.tours.find? (fun t => t.id == tid)

def findActivity (db : GateDB) (aid : Nat) : Option ActivityRow :=
  db.activities.find? (fun a => a.id == aid)

/-- Shared tail of every gate function: `if (now > tourEndDate) throw ...`.
The gate issues only SELECTs; it is a pure read, so it is modelled as a
function of the database that returns no new database. -/
def endDateGate (endDate : Int) (now : Int) : Except String Unit :=
  if endDate < now then Except.error "This tour has ended and is now read-only"
  else Except.ok ()

/-- CleanupService.ts `checkTourReadOnly` (lines 145-163):
Activity → Tour.  A miss anywhere in the join chain yields zero SQL rows,
hence the not-found error. -/
def checkTourReadOnly (db : GateDB) (activityId : Nat) (now : Int) :
    Except String Unit :=
  match findActivity db activityId with
  | none => Except.error "Activity not found"
  | some a =>
    match findTour db a.tour_id with
    | none => Except.error "Activity not found"
    | some t => endDateGate t.end_date now

/-- CleanupService.ts `checkTourReadOnlyByTourId` (lines 171-188). -/
def checkTourReadOnlyByTourId (db : GateDB) (tourId : Nat) (now : Int) :
    Except String Unit :=
  match findTour db tourId with
  | none => Except.error "Tour not found"
  | some t => endDateGate t.end_date now

/-- CleanupService.ts `checkTourReadOnlyByDiscussionId` (lines 196-214):
Discussion → Tour (direct FK). -/
def checkTourReadOnlyByDiscussionId (db : GateDB) (discussionId : Nat)
    (now : Int) : Except String Unit :=
  match db.discussions.find? (fun d => d.id == discussionId) with
  | none => Except.error "Discussion not found"
  | some d =>
    match findTour db d.tour_id with
    | none => Except.error "Discussion not found"
    | some t => endDateGate t.end_date now

/-- CleanupService.ts `checkTourReadOnlyByNoteId` (lines 222-241):
Note → Activity → Tour. -/
def checkTourReadOnlyByNoteId (db : GateDB) (noteId : Nat) (now : Int) :
    Except String Unit :=
  match db.notes.find? (fun n => n.id == noteId) with
  | none => Except.error "Note not found"
  | some n =>
    match findActivity db n.activity_id with
    | none => Except.error "Note not found"
    | some a =>
      match findTour db a.tour_id with
      | none => Except.error "Note not found"
      | some t => endDateGate t.end_date now

/-- CleanupService.ts `checkTourReadOnlyByTeamId` (lines 249-268):
DiscussionTeam → Activity → Tour. -/
def checkTourReadOnlyByTeamId (db : GateDB) (teamId : Nat) (now : Int) :
    Except String Unit :=
  match db.discussion_teams.find? (fun dt => dt.id == teamId) with
  | none => Except.error "Team not found"
  | some dt =>
    match findActivity db dt.discussion_activity_id with
    | none => Except.error "Team not found"
    | some a =>
      match findTour db a.tour_id with
      | none => Except.error "Team not found"
      | some t => endDateGate t.end_date now

/-- CleanupService.ts `checkTourReadOnlyByTeamNoteId` (lines 276-296):
DiscussionTeamNote → DiscussionTeam → Activity → Tour. -/
def checkTourReadOnlyByTeamNoteId (db : GateDB) (noteId : Nat) (now : Int) :
    Except String Unit :=
  match db.discussion_team_notes.find? (fun dtn => dtn.id == noteId) with
  | none => Except.error "Team note not found"
  | some dtn =>
    match db.discussion_teams.find? (fun dt => dt.id == dtn.team_id) with
    | none => Except.error "Team note not found"
    | some dt =>
      match findActivity db dt.discussion_activity_id with
      | none => Except.error "Team note not found"
      | some a =>
        match findTour db a.tour_id with
        | none => Except.error "Team note not found"
        | some t => endDateGate t.end_date now

/-- CleanupService.ts `checkTourReadOnlyByMessageId` (lines 304-323):
DiscussionMessage → Discussion → Tour. -/
def checkTourReadOnlyByMessageId (db : GateDB) (messageId : Nat) (now : Int) :
    Except String Unit :=
  match db.discussion_messages.find? (fun dm => dm.id == messageId) with
  | none => Except.error "Message not found"
  | some dm =>
    match db.discussions.find? (fun d => d.id == dm.discussion_id) with
    | none => Except.error "Message not found"
    | some d =>
      match findTour db d.tour_id with
      | none => Except.error "Message not found"
      | some t => endDateGate t.end_date now

/-- CleanupService.ts `checkTourReadOnlyByQuestionId` (lines 331-350):
ActivityQuestion → Activity → Tour. -/
def checkTourReadOnlyByQuestionId (db : GateDB) (questionId : Nat)
    (now : Int) : Except String Unit :=
  match db.activity_questions.find? (fun aq => aq.id == questionId) with
  | none => Except.error "Question not found"
  | some aq =>
    match findActivity db aq.activity_id with
    | none => Except.error "Question not found"
    | some a =>
      match findTour db a.tour_id with
      | none => Except.error "Question not found"
      | some t => endDateGate t.end_date now

/-- CleanupService.ts `checkTourReadOnlyByDiscussionQuestionId`
(lines 358-377): DiscussionQuestion → Activity → Tour. -/
def checkTourReadOnlyByDiscussionQuestionId (db : GateDB) (questionId : Nat)
    (now : Int) : Except String Unit :=
  match db.discussion_questions.find? (fun dq => dq.id == questionId) with
  | none => Except.error "Discussion question not found"
  | some dq =>
    match findActivity db dq.discussion_activity_id with
    | none => Except.error "Discussion question not found"
    | some a =>
      match findTour db a.tour_id with
      | none => Except.error "Discussion question not found"
      | some t => endDateGate t.end_date now

/-- The seven entity kinds gated by the read-only check. -/
inductive GateEntity
  | note
  | discussion
  | message
  | activityQuestion
  | team
  | teamNote
  | discussionQuestion
  deriving DecidableEq

/-- Dispatch to the source's per-kind gate function. -/
def gateCheck (db : GateDB) (k : GateEntity) (i : Nat) (now : Int) :
    Except String Unit :=
  match k with
  | .note => checkTourReadOnlyByNoteId db i now
  | .discussion => checkTourReadOnlyByDiscussionId db i now
  | .message => checkTourReadOnlyByMessageId db i now
  | .activityQuestion => checkTourReadOnlyByQuestionId db i now
  | .team => checkTourReadOnlyByTeamId db i now
  | .teamNote => checkTourReadOnlyByTeamNoteId db i now
  | .discussionQuestion => checkTourReadOnlyByDiscussionQuestionId db i now

/-- The per-kind not-found message thrown when the join chain misses. -/
def notFoundMessage : GateEntity → String
  | .note => "Note not found"
  | .discussion => "Discussion not found"
  | .message => "Message not found"
  | .activityQuestion => "Question not found"
  | .team => "Team not found"
  | .teamNote => "Team note not found"
  | .discussionQuestion => "Discussion question not found"

/-- Spec-side formulation of §4.1's join chains: resolve an entity reference
to its owning tour's `end_date`, following the spec's chain for each of the
seven kinds.  Used to compare the gate functions against the spec's words. -/
def resolveTourEndSpec (db : GateDB) (k : GateEntity) (i : Nat) : Option Int :=
  match k with
  | .note =>
      match db.notes.find? (fun r => r.id == i) with
      | none => none
      | some n =>
        match findActivity db n.activity_id with
        | none => none
        | some a =>
          match findTour db a.tour_id with
          | none => none
          | some t => some t.end_date
  | .discussion =>
      match db.discussions.find? (fun r => r.id == i) with
      | none => none
      | some d =>
        match findTour db d.tour_id with
        | none => none
        | some t => some t.end_date
  | .message =>
      match db.discussion_messages.find? (fun r => r.id == i) with
      | none => none
      | some dm =>
        match db.discussions.find? (fun d => d.id == dm.discussion_id) with
        | none => none
        | some d =>
          match findTour db d.tour_id with
          | none => none
          | some t => some t.end_date
  | .activityQuestion =>
      match db.activity_questions.find? (fun r => r.id == i) with
      | none => none
      | some aq =>
        match findActivity db aq.activity_id with
        | none => none
        | some a =>
          match findTour db a.tour_id with
          | none => none
          | some t => some t.end_date
  | .team =>
      match db.discussion_teams.find? (fun r => r.id == i) with
      | none => none
      | some dt =>
        match findActivity db dt.discussion_activity_id with
        | none => none
        | some a =>
          match findTour db a.tour_id with
          | none => none
          | some t => some t.end_date
  | .teamNote =>
      match db.discussion_team_notes.find? (fun r => r.id == i) with
      | none => none
      | some dtn =>
        match db.discussion_teams.find? (fun dt => dt.id == dtn.team_id) with
        | none => none
        | some dt =>
          match findActivity db dt.discussion_activity_id with
          | none => none
          | some a =>
            match findTour db a.tour_id with
            | none => none
            | some t => some t.end_date
  | .discussionQuestion =>
      match db.discussion_questions.find? (fun r => r.id == i) with
      | none => none
      | some dq =>
        match findActivity db dq.discussion_activity_id with
        | none => none
        | some a =>
          match findTour db a.tour_id with
          | none => none
          | some t => some t.end_date

theorem gateCheck_eq_resolve (db : GateDB) (k : GateEntity) (i : Nat)
    (now : Int) :
    gateCheck db k i now =
      match resolveTourEndSpec db k i with
      | none => Except.error (notFoundMessage k)
      | some e => endDateGate e now := by
  cases k
  case note =>
    show checkTourReadOnlyByNoteId db i now = _
    unfold checkTourReadOnlyByNoteId resolveTourEndSpec notFoundMessage
    cases db.notes.find? (fun r => r.id == i) with
    | none => rfl
    | some n =>
      dsimp only
      cases findActivity db n.activity_id with
      | none => rfl
      | some a =>
        dsimp only
        cases findTour db a.tour_id with
        | none => rfl
        | some t => rfl
  case discussion =>
    show checkTourReadOnlyByDiscussionId db i now = _
    unfold checkTourReadOnlyByDiscussionId resolveTourEndSpec notFoundMessage
    cases db.discussions.find? (fun r => r.id == i) with
    | none => rfl
    | some d =>
      dsimp only
      cases findTour db d.tour_id with
      | none => rfl
      | some t => rfl
  case message =>
    show checkTourReadOnlyByMessageId db i now = _
    unfold checkTourReadOnlyByMessageId resolveTourEndSpec notFoundMessage
    cases db.discussion_messages.find? (fun r => r.id == i) with
    | none => rfl
    | some dm =>
      dsimp only
      cases db.discussions.find? (fun d => d.id == dm.discussion_id) with
      | none => rfl
      | some d =>
        dsimp only
        cases findTour db d.tour_id with
        | none => rfl
        | some t => rfl
  case activityQuestion =>
    show checkTourReadOnlyByQuestionId db i now = _
    unfold checkTourReadOnlyByQuestionId resolveTourEndSpec notFoundMessage
    cases db.activity_questions.find? (fun r => r.id == i) with
    | none => rfl
    | some aq =>
      dsimp only
      cases findActivity db aq.activity_id with
      | none => rfl
      | some a =>
        dsimp only
        cases findTour db a.tour_id with
        | none => rfl
        | some t => rfl
  case team =>
    show checkTourReadOnlyByTeamId db i now = _
    unfold checkTourReadOnlyByTeamId resolveTourEndSpec notFoundMessage
    cases db.discussion_teams.find? (fun r => r.id == i) with
    | none => rfl
    | some dt =>
      dsimp only
      cases findActivity db dt.discussion_activity_id with
      | none => rfl
      | some a =>
        dsimp only
        cases findTour db a.tour_id with
        | none => rfl
        | some t => rfl
  case teamNote =>
    show checkTourReadOnlyByTeamNoteId db i now = _
    unfold checkTourReadOnlyByTeamNoteId resolveTourEndSpec notFoundMessage
    cases db.discussion_team_notes.find? (fun r => r.id == i) with
    | none => rfl
    | some dtn =>
      dsimp only
      cases db.discussion_teams.find? (fun dt => dt.id == dtn.team_id) with
      | none => rfl
      | some dt =>
        dsimp only
        cases findActivity db dt.discussion_activity_id with
        | none => rfl
        | some a =>
          dsimp only
          cases findTour db a.tour_id with
          | none => rfl
          | some t => rfl
  case discussionQuestion =>
    show checkTourReadOnlyByDiscussionQuestionId db i now = _
    unfold checkTourReadOnlyByDiscussionQuestionId resolveTourEndSpec
      notFoundMessage
    cases db.discussion_questions.find? (fun r => r.id == i) with
    | none => rfl
    | some dq =>
      dsimp only
      cases findActivity db dq.discussion_activity_id with
      | none => rfl
      | some a =>
        dsimp only
        cases findTour db a.tour_id with
        | none => rfl
        | some t => rfl

/-- C1: for every entity of the seven gated kinds, the read-only gate succeeds
exactly when the entity's join chain resolves to a tour whose `end_date` is
not in the past (`now ≤ end_date`); if the chain does not resolve it fails
with that kind's not-found error; if it resolves and `now > end_date` it fails
with the exact message "This tour has ended and is now read-only".  The gate
is a pure read of the database (it is a function of the state and returns no
new state), so a successful check performs no write. -/
theorem gate_read_only_correct (db : GateDB) (k : GateEntity) (i : Nat)
    (now : Int) :
    (gateCheck db k i now = Except.ok () ↔
        ∃ e, resolveTourEndSpec db k i = some e ∧ now ≤ e)
    ∧ (resolveTourEndSpec db k i = none →
        gateCheck db k i now = Except.error (notFoundMessage k))
    ∧ (∀ e, resolveTourEndSpec db k i = some e → e < now →
        gateCheck db k i now =
          Except.error "This tour has ended and is now read-only") := by
  rw [gateCheck_eq_resolve]
  cases h : resolveTourEndSpec db k i with
  | none =>
    refine ⟨⟨fun hc => ?_, fun ⟨e, he, _⟩ => by simp at he⟩, fun _ => rfl,
      fun e he => by simp at he⟩
    simp [endDateGate] at hc
  | some v =>
    constructor
    · constructor
      · intro hc
        refine ⟨v, rfl, ?_⟩
        by_contra hlt
        push_neg at hlt
        simp [endDateGate, hlt] at hc
      · rintro ⟨e, he, hle⟩
        obtain rfl : v = e := by simpa using he
        simp [endDateGate, not_lt.mpr hle]
    · exact ⟨fun hn => by simp at hn,
        fun e he hlt => by
          obtain rfl : v = e := by simpa using he
          simp [endDateGate, hlt]⟩

/-- A tiny concrete database for the gate: one tour ending at time 10, one
activity on it, and one of each gated entity chained to that activity or to
the tour's discussion. -/
def gateDB0 : GateDB :=
  { tours := [{ id := 1, end_date := 10 }]
    activities := [{ id := 1, tour_id := 1 }]
    notes := [{ id := 1, activity_id := 1 }]
    discussions := [{ id := 1, tour_id := 1 }]
    discussion_messages := [{ id := 1, discussion_id := 1 }]
    activity_questions := [{ id := 1, activity_id := 1 }]
    discussion_teams := [{ id := 1, discussion_activity_id := 1 }]
    discussion_team_notes := [{ id := 1, team_id := 1 }]
    discussion_questions := [{ id := 1, discussion_activity_id := 1 }] }

theorem gate_read_only_correct_witness :
    gateCheck gateDB0 GateEntity.note 1 5 = Except.ok ()
      ∧ gateCheck gateDB0 GateEntity.note 1 99 =
          Except.error "This tour has ended and is now read-only"
      ∧ gateCheck gateDB0 GateEntity.note 2 5 =
          Except.error "Note not found" :=
  ⟨(gate_read_only_correct gateDB0 GateEntity.note 1 5).1.mpr
      ⟨10, by decide, by decide⟩,
   (gate_read_only_correct gateDB0 GateEntity.note 1 99).2.2 10
      (by decide) (by decide),
   (gate_read_only_correct gateDB0 GateEntity.note 2 5).2.1 (by decide)⟩

/-! ## Survey response engine: data model

Rows of `surveys`, `survey_responses` and `survey_question_responses`,
restricted to the columns the engine reads or writes.  The SERIAL id
counters of the two response tables are carried explicitly.  -/

structure SurveyRow where
  id : Nat
  public_access_token : Option String
  allow_public_access : Bool
  status : String
  public_access_expires_at : Option Int
  deriving DecidableEq

structure ResponseRow where
  id : Nat
  survey_id : Nat
  user_id : Option String
  started_at : Int
  submitted_at : Option Int
  is_complete : Bool
  metadata : Option String
  respondent_email : Option String
  respondent_name : Option String
  is_anonymous : Bool
  deriving DecidableEq

structure AnswerRow where
  id : Nat
  response_id : Nat
  question_id : Nat
  text_response : Option String
  number_response : Option Int
  date_response : Option Int
  selected_option_ids : Option (List Nat)
  rating_response : Option Int
  deriving DecidableEq

structure SurveyDB where
  surveys : List SurveyRow
  responses : List ResponseRow
  answers : List AnswerRow
  nextResponseId : Nat
  nextAnswerId : Nat
  deriving DecidableEq

/-- One element of the request's `responses` array
(`CreateQuestionResponseData`). -/
structure AnswerInput where
  question_id : Nat
  text_response : Option String
  number_response : Option Int
  date_response : Option Int
  selected_option_ids : Option (List Nat)
  rating_response : Option Int
  deriving DecidableEq

/-- JS `x || null` on an optional numeric column: `0` is falsy and becomes
NULL. -/
def jsOrNullInt : Option Int → Option Int
  | none => none
  | some v => if v = 0 then none else some v

/-- JS `x || null` on an optional text column: the empty string is falsy and
becomes NULL. -/
def jsOrNullStr : Option String → Option String
  | none => none
  | some s => if s = "" then none else some s

/-- JS `x || null` on the `selected_option_ids` array: arrays (even empty
ones) are truthy in JS, so only undefined/null map to NULL. -/
def jsOrNullArr : Option (List Nat) → Option (List Nat)
  | none => none
  | some l => some l

/-- JS `x || null` on the `date_response` value: `Date` objects are truthy in
JS, so only undefined/null map to NULL. -/
def jsOrNullDate : Option Int → Option Int
  | none => none
  | some d => some d

/-- The `|| null` guards applied to every answer field by
`submitSurveyResponse` (lines 119-123) and `saveSurveyProgress`
(lines 186-190) before insertion. -/
def coerceAnswer (a : AnswerInput) : AnswerInput :=
  { question_id := a.question_id
    text_response := jsOrNullStr a.text_response
    number_response := jsOrNullInt a.number_response
    date_response := jsOrNullDate a.date_response
    selected_option_ids := jsOrNullArr a.selected_option_ids
    rating_response := jsOrNullInt a.rating_response }

/-- Migration 010: `rating_response INTEGER CHECK (rating_response >= 1 AND
rating_response <= 5)`; NULL passes the check. -/
def ratingCheckOk : Option Int → Bool
  | none => true
  | some r => decide (1 ≤ r) && decide (r ≤ 5)

/-- The stored `survey_question_responses` row for one answer. -/
def mkAnswerRow (aid rid : Nat) (a : AnswerInput) : AnswerRow :=
  { id := aid, response_id := rid, question_id := a.question_id
    text_response := a.text_response, number_response := a.number_response
    date_response := a.date_response
    selected_option_ids := a.selected_option_ids
    rating_response := a.rating_response }

/-- Models a failure of the c-th SQL statement of one engine call (an
arbitrary database error such as a dropped connection); `none` injects no
failure. -/
def runStmt (c : Nat) (failAt : Option Nat) : Except String Unit :=
  if failAt = some c then Except.error "database error" else Except.ok ()

/-- The plain `INSERT INTO survey_question_responses ...` loop used by
`submitSurveyResponse` (lines 111-125, with the `|| null` guards:
`applyOrNull = true`) and `submitAnonymousResponse` (lines 513-529, raw
values: `applyOrNull = false`).  Each insert is one statement; the UNIQUE
(response_id, question_id) index and the rating CHECK of migration 010 are
enforced.  Returns the state reached together with the first error, if
any (the caller decides whether that state is rolled back). -/
def insertAnswersPlain (db : SurveyDB) (rid : Nat)
    (answers : List AnswerInput) (applyOrNull : Bool) (c : Nat)
    (failAt : Option Nat) : SurveyDB × Option String :=
  match answers with
  | [] => (db, none)
  | a :: rest =>
    match runStmt c failAt with
    | Except.error e => (db, some e)
    | Except.ok _ =>
      let v := if applyOrNull then coerceAnswer a else a
      if db.answers.any (fun q =>
          q.response_id == rid && q.question_id == v.question_id) then
        (db, some "duplicate key value violates unique constraint")
      else if ratingCheckOk v.rating_response = false then
        (db, some "new row violates check constraint")
      else
        insertAnswersPlain
          { db with
              answers := db.answers ++ [mkAnswerRow db.nextAnswerId rid v]
              nextAnswerId := db.nextAnswerId + 1 }
          rid rest applyOrNull (c + 1) failAt

/-- One `INSERT ... ON CONFLICT (response_id, question_id) DO UPDATE` of
`saveSurveyProgress` (lines 171-191): if a row for (rid, question) exists its
value columns are overwritten in place, otherwise a new row is appended. -/
def upsertAnswer (db : SurveyDB) (rid : Nat) (v : AnswerInput) : SurveyDB :=
  if db.answers.any (fun q =>
      q.response_id == rid && q.question_id == v.question_id) then
    { db with
        answers := db.answers.map (fun q =>
          if q.response_id == rid && q.question_id == v.question_id then
            { q with
                text_response := v.text_response
                number_response := v.number_response
                date_response := v.date_response
                selected_option_ids := v.selected_option_ids
                rating_response := v.rating_response }
          else q) }
  else
    { db with
        answers := db.answers ++ [mkAnswerRow db.nextAnswerId rid v]
        nextAnswerId := db.nextAnswerId + 1 }

/-- The upsert loop of `saveSurveyProgress`, with the `|| null` guards. -/
def insertAnswersUpsert (db : SurveyDB) (rid : Nat)
    (answers : List AnswerInput) (c : Nat) (failAt : Option Nat) :
    SurveyDB × Option String :=
  match answers with
  | [] => (db, none)
  | a :: rest =>
    match runStmt c failAt with
    | Except.error e => (db, some e)
    | Except.ok _ =>
      let v := coerceAnswer a
      if ratingCheckOk v.rating_response = false then
        (db, some "new row violates check constraint")
      else
        insertAnswersUpsert (upsertAnswer db rid v) rid rest (c + 1) failAt

/-- The committed insert of a concurrent transaction becoming visible
between this call's existence check and its own INSERT (spec §5's race on
the partial unique index); `none` means no concurrent writer. -/
def withRace (db : SurveyDB) (race : Option ResponseRow) : SurveyDB :=
  match race with
  | none => db
  | some r => { db with responses := db.responses ++ [r] }

/-- The `UPDATE survey_responses SET submitted_at = NOW(), is_complete =
true, metadata = $1 WHERE id = $2` of `submitSurveyResponse` (lines 94-98),
applied to one stored row. -/
def applySubmitUpdate (rid : Nat) (metadata : Option String) (now : Int)
    (q : ResponseRow) : ResponseRow :=
  if q.id == rid then
    { q with submitted_at := some now, is_complete := true
             metadata := metadata }
  else q

/-- `submitSurveyResponse` (surveyResponse.service.ts lines 74-134).
Statements run inside BEGIN ... COMMIT; on any error the catch block issues
ROLLBACK and rethrows, so the returned state is the state at BEGIN (plus any
concurrently committed row).  Statement numbering: 0 = existence SELECT,
then per branch the DELETE/UPDATE or INSERT, then one INSERT per answer.
Returns (stored state after the call, call result). -/
def submitSurveyResponse (db : SurveyDB) (userId : String) (surveyId : Nat)
    (answers : List AnswerInput) (metadata : Option String) (now : Int)
    (race : Option ResponseRow) (failAt : Option Nat) :
    SurveyDB × Except String Nat :=
  match runStmt 0 failAt with
  | Except.error e => (withRace db race, Except.error e)
  | Except.ok _ =>
    let existing := db.responses.find? (fun r =>
      r.survey_id == surveyId && r.user_id == some userId)
    let dbr := withRace db race
    match existing with
    | some r =>
      match runStmt 1 failAt with
      | Except.error e => (dbr, Except.error e)
      | Except.ok _ =>
        let db1 := { dbr with
          answers := dbr.answers.filter (fun q => !(q.response_id == r.id)) }
        match runStmt 2 failAt with
        | Except.error e => (dbr, Except.error e)
        | Except.ok _ =>
          let db2 := { db1 with
            responses := db1.responses.map (applySubmitUpdate r.id metadata now) }
          match insertAnswersPlain db2 r.id answers true 3 failAt with
          | (_, some e) => (dbr, Except.error e)
          | (db3, none) => (db3, Except.ok r.id)
    | none =>
      match runStmt 1 failAt with
      | Except.error e => (dbr, Except.error e)
      | Except.ok _ =>
        if dbr.responses.any (fun q =>
            q.survey_id == surveyId && q.user_id == some userId) then
          (dbr, Except.error "duplicate key value violates unique constraint")
        else
          let rid := dbr.nextResponseId
          let row : ResponseRow :=
            { id := rid, survey_id := surveyId, user_id := some userId
              started_at := now, submitted_at := some now, is_complete := true
              metadata := metadata, respondent_email := none
              respondent_name := none, is_anonymous := false }
          let db2 := { dbr with
            responses := dbr.responses ++ [row], nextResponseId := rid + 1 }
          match insertAnswersPlain db2 rid answers true 2 failAt with
          | (_, some e) => (dbr, Except.error e)
          | (db3, none) => (db3, Except.ok rid)

/-- `saveSurveyProgress` (surveyResponse.service.ts lines 137-201).
Statements run inside BEGIN ... COMMIT with ROLLBACK on error, like
`submitSurveyResponse`.  On the existing-response path only the answer rows
whose question ids appear in this call are deleted; the response row itself
is not touched. -/
def saveSurveyProgress (db : SurveyDB) (userId : String) (surveyId : Nat)
    (answers : List AnswerInput) (now : Int) (failAt : Option Nat) :
    SurveyDB × Except String Nat :=
  match runStmt 0 failAt with
  | Except.error e => (db, Except.error e)
  | Except.ok _ =>
    let existing := db.responses.find? (fun r =>
      r.survey_id == surveyId && r.user_id == some userId)
    match existing with
    | some r =>
      match runStmt 1 failAt with
      | Except.error e => (db, Except.error e)
      | Except.ok _ =>
        let qids := answers.map (fun a => a.question_id)
        let db1 := { db with
          answers := db.answers.filter (fun q =>
            !(q.response_id == r.id && qids.contains q.question_id)) }
        match insertAnswersUpsert db1 r.id answers 2 failAt with
        | (_, some e) => (db, Except.error e)
        | (db2, none) => (db2, Except.ok r.id)
    | none =>
      match runStmt 1 failAt with
      | Except.error e => (db, Except.error e)
      | Except.ok _ =>
        if db.responses.any (fun q =>
            q.survey_id == surveyId && q.user_id == some userId) then
          (db, Except.error "duplicate key value violates unique constraint")
        else
          let rid := db.nextResponseId
          let row : ResponseRow :=
            { id := rid, survey_id := surveyId, user_id := some userId
              started_at := now, submitted_at := none, is_complete := false
              metadata := none, respondent_email := none
              respondent_name := none, is_anonymous := false }
          let db1 := { db with
            responses := db.responses ++ [row], nextResponseId := rid + 1 }
          match insertAnswersUpsert db1 rid answers 2 failAt with
          | (_, some e) => (db, Except.error e)
          | (db2, none) => (db2, Except.ok rid)

/-- `isValidEmail` (surveyResponse.service.ts lines 689-692): the regex
`/^[^\s@]+@[^\s@]+\.[^\s@]+$/`, i.e. no whitespace anywhere, exactly one
`@`, a nonempty local part, and a domain containing a dot with at least one
character on each side. -/
def isValidEmail (s : String) : Bool :=
  let cs := s.toList
  let localPart := cs.takeWhile (fun c => c != '@')
  let afterAt := (cs.dropWhile (fun c => c != '@')).drop 1
  cs.all (fun c => !c.isWhitespace) &&
  cs.count '@' == 1 &&
  !localPart.isEmpty &&
  !afterAt.isEmpty &&
  (afterAt.drop 1).dropLast.contains '.'

/-- The token-validity predicate of the public submission paths
(lines 476-482): matching token, `allow_public_access = true`,
`status = 'ACTIVE'`, and expiry NULL or in the future. -/
def tokenMatches (s : SurveyRow) (token : String) (now : Int) : Bool :=
  s.public_access_token == some token && s.allow_public_access &&
  s.status == "ACTIVE" &&
  (match s.public_access_expires_at with
   | none => true
   | some t => decide (now < t))

/-- The JSON text of the empty object `.metadata || ` default. -/
def emptyJsonObject : String := "\x7b\x7d"

/-- `submitAnonymousResponse` (surveyResponse.service.ts lines 471-532).
There is no BEGIN/COMMIT in this function: each statement executes directly
against the pool, so when a statement fails the effects of the earlier
statements remain in place.  Statement numbering: 0 = token SELECT,
1 = response INSERT, then one INSERT per answer.  The anonymous row is
always a brand-new insert (user_id NULL, is_anonymous true); migration
`add public access` adds the CHECK that anonymous rows carry an email. -/
def submitAnonymousResponse (db : SurveyDB) (token : String)
    (answers : List AnswerInput) (metadata : Option String)
    (respondent_email : Option String) (respondent_name : Option String)
    (now : Int) (failAt : Option Nat) : SurveyDB × Except String Nat :=
  match runStmt 0 failAt with
  | Except.error e => (db, Except.error e)
  | Except.ok _ =>
    match db.surveys.find? (fun s => tokenMatches s token now) with
    | none => (db, Except.error "Invalid or expired public survey token")
    | some s =>
      if respondent_email.elim false (fun e => !(isValidEmail e)) then
        (db, Except.error "Invalid email format")
      else
        match runStmt 1 failAt with
        | Except.error e => (db, Except.error e)
        | Except.ok _ =>
          if respondent_email.isNone then
            (db, Except.error "new row violates check constraint")
          else
            let rid := db.nextResponseId
            let row : ResponseRow :=
              { id := rid, survey_id := s.id, user_id := none
                started_at := now, submitted_at := some now
                is_complete := true
                metadata := some (metadata.getD emptyJsonObject)
                respondent_email := respondent_email
                respondent_name := respondent_name, is_anonymous := true }
            let db1 := { db with
              responses := db.responses ++ [row], nextResponseId := rid + 1 }
            match insertAnswersPlain db1 rid answers false 2 failAt with
            | (db2, some e) => (db2, Except.error e)
            | (db2, none) => (db2, Except.ok rid)

/-- `saveAnonymousProgress` (surveyResponse.service.ts lines 535-572): a
single `INSERT ... ON CONFLICT DO NOTHING` creating an incomplete anonymous
row; the partial unique index never applies to NULL user_id, so the insert
always succeeds when it runs. -/
def saveAnonymousProgress (db : SurveyDB) (token : String)
    (metadata : Option String) (respondent_email : Option String)
    (respondent_name : Option String) (now : Int) (failAt : Option Nat) :
    SurveyDB × Except String Nat :=
  match runStmt 0 failAt with
  | Except.error e => (db, Except.error e)
  | Except.ok _ =>
    match db.surveys.find? (fun s => tokenMatches s token now) with
    | none => (db, Except.error "Invalid or expired public survey token")
    | some s =>
      match runStmt 1 failAt with
      | Except.error e => (db, Except.error e)
      | Except.ok _ =>
        if respondent_email.isNone then
          (db, Except.error "new row violates check constraint")
        else
          let rid := db.nextResponseId
          let row : ResponseRow :=
            { id := rid, survey_id := s.id, user_id := none
              started_at := now, submitted_at := none, is_complete := false
              metadata := some (metadata.getD emptyJsonObject)
              respondent_email := respondent_email
              respondent_name := respondent_name, is_anonymous := true }
          ({ db with
              responses := db.responses ++ [row]
              nextResponseId := rid + 1 }, Except.ok rid)

/-- The response rows stored for one (survey, user) pair. -/
def responsesFor (db : SurveyDB) (surveyId : Nat) (userId : String) :
    List ResponseRow :=
  db.responses.filter (fun r =>
    r.survey_id == surveyId && r.user_id == some userId)

/-- The answer rows stored for one response. -/
def answersFor (db : SurveyDB) (rid : Nat) : List AnswerRow :=
  db.answers.filter (fun a => a.response_id == rid)

/-- The stored content of an answer row, forgetting the generated row id. -/
def answerVals (a : AnswerRow) : AnswerInput :=
  { question_id := a.question_id, text_response := a.text_response
    number_response := a.number_response, date_response := a.date_response
    selected_option_ids := a.selected_option_ids
    rating_response := a.rating_response }

/-! ## Helper lemmas about the engine's building blocks -/

/-- The rows appended by a run of consecutive answer inserts, with SERIAL
ids starting at `aid`. -/
def mkRows (aid rid : Nat) : List AnswerInput → List AnswerRow
  | [] => []
  | v :: vs => mkAnswerRow aid rid v :: mkRows (aid + 1) rid vs

theorem runStmt_none (c : Nat) : runStmt c none = Except.ok () := rfl

theorem insertAnswersPlain_state (answers : List AnswerInput) :
    ∀ (db : SurveyDB) (rid : Nat) (b : Bool) (c : Nat) (f : Option Nat),
      (insertAnswersPlain db rid answers b c f).1.responses = db.responses
      ∧ (insertAnswersPlain db rid answers b c f).1.surveys = db.surveys
      ∧ (insertAnswersPlain db rid answers b c f).1.nextResponseId
          = db.nextResponseId := by
  induction answers with
  | nil => intro db rid b c f; exact ⟨rfl, rfl, rfl⟩
  | cons a rest ih =>
    intro db rid b c f
    unfold insertAnswersPlain
    cases runStmt c f with
    | error e => exact ⟨rfl, rfl, rfl⟩
    | ok u =>
      dsimp only
      split
      all_goals
        split
        · exact ⟨rfl, rfl, rfl⟩
        · split
          · exact ⟨rfl, rfl, rfl⟩
          · exact ih _ _ _ _ _

theorem upsertAnswer_state (db : SurveyDB) (rid : Nat) (v : AnswerInput) :
    (upsertAnswer db rid v).responses = db.responses
    ∧ (upsertAnswer db rid v).surveys = db.surveys
    ∧ (upsertAnswer db rid v).nextResponseId = db.nextResponseId := by
  unfold upsertAnswer
  split
  · exact ⟨rfl, rfl, rfl⟩
  · exact ⟨rfl, rfl, rfl⟩

theorem insertAnswersUpsert_state (answers : List AnswerInput) :
    ∀ (db : SurveyDB) (rid : Nat) (c : Nat) (f : Option Nat),
      (insertAnswersUpsert db rid answers c f).1.responses = db.responses
      ∧ (insertAnswersUpsert db rid answers c f).1.surveys = db.surveys
      ∧ (insertAnswersUpsert db rid answers c f).1.nextResponseId
          = db.nextResponseId := by
  induction answers with
  | nil => intro db rid c f; exact ⟨rfl, rfl, rfl⟩
  | cons a rest ih =>
    intro db rid c f
    unfold insertAnswersUpsert
    cases runStmt c f with
    | error e => exact ⟨rfl, rfl, rfl⟩
    | ok u =>
      dsimp only
      split
      · exact ⟨rfl, rfl, rfl⟩
      · have h1 := ih (upsertAnswer db rid (coerceAnswer a)) rid (c + 1) f
        have h2 := upsertAnswer_state db rid (coerceAnswer a)
        exact ⟨h1.1.trans h2.1, h1.2.1.trans h2.2.1, h1.2.2.trans h2.2.2⟩

theorem coerceAnswer_question_id (a : AnswerInput) :
    (coerceAnswer a).question_id = a.question_id := rfl

/-- Successful run of the plain insert loop: no injected failure, payload
question ids distinct, no stored row already present for (rid, question),
ratings within the CHECK bounds.  The loop appends exactly the payload's
rows. -/
theorem insertAnswersPlain_ok (answers : List AnswerInput) :
    ∀ (db : SurveyDB) (rid : Nat) (b : Bool) (c : Nat),
      (∀ a ∈ answers, db.answers.any (fun q =>
          q.response_id == rid && q.question_id == a.question_id) = false) →
      (answers.map AnswerInput.question_id).Nodup →
      (∀ a ∈ answers,
          ratingCheckOk ((if b then coerceAnswer a else a).rating_response)
            = true) →
      insertAnswersPlain db rid answers b c none =
        ({ db with
            answers := db.answers ++
              mkRows db.nextAnswerId rid
                (answers.map (fun a => if b then coerceAnswer a else a))
            nextAnswerId := db.nextAnswerId + answers.length }, none) := by
  induction answers with
  | nil =>
    intro db rid b c _ _ _
    simp [insertAnswersPlain, mkRows]
  | cons a rest ih =>
    intro db rid b c hno hnd hr
    unfold insertAnswersPlain
    rw [runStmt_none]
    dsimp only
    have hqid : (if b then coerceAnswer a else a).question_id
        = a.question_id := by
      cases b <;> simp [coerceAnswer_question_id]
    rw [hqid, if_neg (by rw [hno a (by simp)]; simp),
      if_neg (by rw [hr a (by simp)]; simp)]
    rw [ih _ _ _ _ ?_ ?_ ?_]
    · have harith : db.nextAnswerId + 1 + rest.length
          = db.nextAnswerId + (rest.length + 1) := by omega
      simp [mkRows, List.append_assoc, harith]
    · intro x hx
      have hne : a.question_id ≠ x.question_id := by
        simp only [List.map_cons, List.nodup_cons] at hnd
        intro hcontra
        exact hnd.1 (hcontra ▸ List.mem_map_of_mem AnswerInput.question_id hx)
      rw [List.any_append, hno x (by simp [hx])]
      simp [mkAnswerRow, hqid, hne]
    · simpa using hnd.of_cons
    · intro x hx; exact hr x (by simp [hx])

/-- Successful run of the upsert loop when none of the payload's question
ids are present for `rid`: it appends exactly the payload's rows, like the
plain loop. -/
theorem insertAnswersUpsert_ok (answers : List AnswerInput) :
    ∀ (db : SurveyDB) (rid : Nat) (c : Nat),
      (∀ a ∈ answers, db.answers.any (fun q =>
          q.response_id == rid && q.question_id == a.question_id) = false) →
      (answers.map AnswerInput.question_id).Nodup →
      (∀ a ∈ answers,
          ratingCheckOk (coerceAnswer a).rating_response = true) →
      insertAnswersUpsert db rid answers c none =
        ({ db with
            answers := db.answers ++
              mkRows db.nextAnswerId rid (answers.map coerceAnswer)
            nextAnswerId := db.nextAnswerId + answers.length }, none) := by
  induction answers with
  | nil =>
    intro db rid c _ _ _
    simp [insertAnswersUpsert, mkRows]
  | cons a rest ih =>
    intro db rid c hno hnd hr
    unfold insertAnswersUpsert
    rw [runStmt_none]
    dsimp only
    rw [if_neg (by rw [hr a (by simp)]; simp)]
    have hup : upsertAnswer db rid (coerceAnswer a) =
        { db with
            answers := db.answers ++ [mkAnswerRow db.nextAnswerId rid
              (coerceAnswer a)]
            nextAnswerId := db.nextAnswerId + 1 } := by
      unfold upsertAnswer
      rw [coerceAnswer_question_id,
        if_neg (by rw [hno a (by simp)]; simp)]
    rw [hup, ih _ _ _ ?_ ?_ ?_]
    · have harith : db.nextAnswerId + 1 + rest.length
          = db.nextAnswerId + (rest.length + 1) := by omega
      simp [mkRows, List.append_assoc, harith]
    · intro x hx
      have hne : a.question_id ≠ x.question_id := by
        simp only [List.map_cons, List.nodup_cons] at hnd
        intro hcontra
        exact hnd.1 (hcontra ▸ List.mem_map_of_mem AnswerInput.question_id hx)
      rw [List.any_append, hno x (by simp [hx])]
      simp [mkAnswerRow, coerceAnswer_question_id, hne]
    · simpa using hnd.of_cons
    · intro x hx; exact hr x (by simp [hx])

theorem mkRows_filter_self (vs : List AnswerInput) :
    ∀ (aid rid : Nat),
      (mkRows aid rid vs).filter (fun a => a.response_id == rid) =
        mkRows aid rid vs := by
  induction vs with
  | nil => intro aid rid; rfl
  | cons v rest ih =>
    intro aid rid
    simp [mkRows, mkAnswerRow, List.filter_cons, ih]

theorem mkRows_map_answerVals (vs : List AnswerInput) :
    ∀ (aid rid : Nat), (mkRows aid rid vs).map answerVals = vs := by
  induction vs with
  | nil => intro aid rid; rfl
  | cons v rest ih =>
    intro aid rid
    simp only [mkRows, List.map_cons, ih]
    rfl

theorem mkRows_response_id (vs : List AnswerInput) :
    ∀ (aid rid : Nat) (x : AnswerRow), x ∈ mkRows aid rid vs →
      x.response_id = rid := by
  induction vs with
  | nil => intro aid rid x hx; simp [mkRows] at hx
  | cons v rest ih =>
    intro aid rid x hx
    simp only [mkRows, List.mem_cons] at hx
    rcases hx with rfl | hx
    · rfl
    · exact ih _ _ _ hx

theorem mkRows_question_id (vs : List AnswerInput) :
    ∀ (aid rid : Nat) (x : AnswerRow), x ∈ mkRows aid rid vs →
      x.question_id ∈ vs.map AnswerInput.question_id := by
  induction vs with
  | nil => intro aid rid x hx; simp [mkRows] at hx
  | cons v rest ih =>
    intro aid rid x hx
    simp only [mkRows, List.mem_cons] at hx
    rcases hx with rfl | hx
    · simp [mkAnswerRow]
    · simpa using Or.inr (by simpa using ih _ _ _ hx)

theorem any_eq_false_iff {α : Type} (l : List α) (p : α → Bool) :
    l.any p = false ↔ ∀ x ∈ l, p x = false := by
  rw [← Bool.not_eq_true, List.any_eq_true]
  simp

theorem filter_eq_singleton_of_find? {α : Type} (l : List α) (p : α → Bool)
    (x : α) (hf : l.find? p = some x) (hone : (l.filter p).length ≤ 1) :
    l.filter p = [x] := by
  have hx : x ∈ l.filter p :=
    List.mem_filter.mpr ⟨List.mem_of_find?_eq_some hf, List.find?_some hf⟩
  have hlen : (l.filter p).length = 1 := by
    refine le_antisymm hone ?_
    cases hfil : l.filter p with
    | nil => rw [hfil] at hx; simp at hx
    | cons y ys => simp
  obtain ⟨a, ha⟩ := List.length_eq_one.mp hlen
  rw [ha] at hx ⊢
  simp only [List.mem_singleton] at hx
  rw [hx]

theorem filter_map_of_pred_comm {α : Type} (l : List α) (g : α → α)
    (p : α → Bool) (h : ∀ x, p (g x) = p x) :
    (l.map g).filter p = (l.filter p).map g := by
  induction l with
  | nil => rfl
  | cons y ys ih =>
    simp only [List.map_cons, List.filter_cons, h y]
    cases hp : p y <;> simp [ih]

theorem applySubmitUpdate_survey_id (rid : Nat) (m : Option String) (t : Int)
    (q : ResponseRow) :
    (applySubmitUpdate rid m t q).survey_id = q.survey_id := by
  unfold applySubmitUpdate
  split <;> rfl

theorem applySubmitUpdate_user_id (rid : Nat) (m : Option String) (t : Int)
    (q : ResponseRow) :
    (applySubmitUpdate rid m t q).user_id = q.user_id := by
  unfold applySubmitUpdate
  split <;> rfl

theorem applySubmitUpdate_id (rid : Nat) (m : Option String) (t : Int)
    (q : ResponseRow) : (applySubmitUpdate rid m t q).id = q.id := by
  unfold applySubmitUpdate
  split <;> rfl

theorem applySubmitUpdate_self (rid : Nat) (m : Option String) (t : Int)
    (q : ResponseRow) (h : q.id = rid) :
    applySubmitUpdate rid m t q =
      { q with submitted_at := some t, is_complete := true
               metadata := m } := by
  unfold applySubmitUpdate
  rw [if_pos (by simp [h])]

/-- Single successful authenticated full submit: postcondition.  The
hypotheses are the partial-unique-index invariant (at most one stored
response for the pair), SERIAL freshness when a new response row would be
created, distinct question ids in the payload, and ratings within the CHECK
bounds of migration 010. -/
theorem submitSurveyResponse_post (db : SurveyDB) (u : String) (sid : Nat)
    (ans : List AnswerInput) (m : Option String) (t : Int)
    (hone : (responsesFor db sid u).length ≤ 1)
    (hfresh : responsesFor db sid u = [] →
      ∀ q ∈ db.answers, q.response_id ≠ db.nextResponseId)
    (hnd : (ans.map AnswerInput.question_id).Nodup)
    (hr : ∀ a ∈ ans, ratingCheckOk (coerceAnswer a).rating_response = true) :
    ∃ rid ro,
      (submitSurveyResponse db u sid ans m t none none).2 = Except.ok rid
      ∧ responsesFor (submitSurveyResponse db u sid ans m t none none).1
          sid u = [ro]
      ∧ ro.id = rid ∧ ro.is_complete = true ∧ ro.submitted_at = some t
      ∧ (answersFor (submitSurveyResponse db u sid ans m t none none).1
          rid).map answerVals = ans.map coerceAnswer := by
  have hball : ∀ a ∈ ans,
      ratingCheckOk ((if true then coerceAnswer a else a).rating_response)
        = true := by
    intro a ha
    simpa using hr a ha
  unfold submitSurveyResponse
  simp only [runStmt_none, withRace]
  cases hex : db.responses.find? (fun r =>
      r.survey_id == sid && r.user_id == some u) with
  | some r =>
    dsimp only
    rw [insertAnswersPlain_ok ans _ r.id true 3 ?_ hnd hball]
    · refine ⟨r.id, applySubmitUpdate r.id m t r, rfl, ?_, ?_, ?_, ?_, ?_⟩
      · show (List.map (applySubmitUpdate r.id m t) db.responses).filter _
            = _
        rw [filter_map_of_pred_comm _ _ _ (fun x => by
          rw [applySubmitUpdate_survey_id, applySubmitUpdate_user_id])]
        have : db.responses.filter (fun r =>
            r.survey_id == sid && r.user_id == some u) = [r] :=
          filter_eq_singleton_of_find? _ _ _ hex hone
        rw [this]
        rfl
      · exact applySubmitUpdate_id r.id m t r
      · rw [applySubmitUpdate_self r.id m t r rfl]
      · rw [applySubmitUpdate_self r.id m t r rfl]
      · show ((db.answers.filter (fun q => !(q.response_id == r.id))
            ++ mkRows _ r.id _).filter
              (fun a => a.response_id == r.id)).map answerVals = _
        rw [List.filter_append]
        have hleft : (db.answers.filter
            (fun q => !(q.response_id == r.id))).filter
              (fun a => a.response_id == r.id) = [] := by
          rw [List.filter_eq_nil_iff]
          intro x hx
          have := (List.mem_filter.mp hx).2
          simp_all
        rw [hleft, mkRows_filter_self, List.nil_append,
          mkRows_map_answerVals]
        simp
    · intro x hx
      rw [any_eq_false_iff]
      intro q hq
      have := (List.mem_filter.mp hq).2
      simp_all
  | none =>
    dsimp only
    have hresp : responsesFor db sid u = [] := by
      rw [responsesFor, List.filter_eq_nil_iff]
      intro x hx
      have := List.find?_eq_none.mp hex x hx
      simpa using this
    rw [if_neg (by
      rw [show (db.responses.any (fun q =>
          q.survey_id == sid && q.user_id == some u)) = false from ?_]
      · simp
      · rw [any_eq_false_iff]
        intro x hx
        have := List.find?_eq_none.mp hex x hx
        simpa using this)]
    rw [insertAnswersPlain_ok ans _ db.nextResponseId true 2 ?_ hnd hball]
    · refine ⟨db.nextResponseId,
        { id := db.nextResponseId, survey_id := sid, user_id := some u
          started_at := t, submitted_at := some t, is_complete := true
          metadata := m, respondent_email := none, respondent_name := none
          is_anonymous := false }, rfl, ?_, rfl, rfl, rfl, ?_⟩
      · show (db.responses ++ [_]).filter _ = _
        rw [List.filter_append]
        have : db.responses.filter (fun r =>
            r.survey_id == sid && r.user_id == some u) = [] := hresp
        rw [this, List.nil_append]
        simp
      · show ((db.answers ++ mkRows _ db.nextResponseId _).filter
            (fun a => a.response_id == db.nextResponseId)).map answerVals
              = _
        rw [List.filter_append]
        have hleft : db.answers.filter
            (fun a => a.response_id == db.nextResponseId) = [] := by
          rw [List.filter_eq_nil_iff]
          intro x hx
          have := hfresh hresp x hx
          simpa using this
        rw [hleft, mkRows_filter_self, List.nil_append,
          mkRows_map_answerVals]
        simp
    · intro x hx
      rw [any_eq_false_iff]
      intro q hq
      have := hfresh hresp q hq
      simp_all

/-- Every run of `submitSurveyResponse` (without a concurrent writer)
either leaves the stored state exactly as it was, or reports success. -/
theorem submitSurveyResponse_cases (db : SurveyDB) (u : String) (sid : Nat)
    (ans : List AnswerInput) (m : Option String) (t : Int) (f : Option Nat) :
    (submitSurveyResponse db u sid ans m t none f).1 = db
    ∨ ∃ rid, (submitSurveyResponse db u sid ans m t none f).2
        = Except.ok rid := by
  unfold submitSurveyResponse
  simp only [withRace]
  split
  · exact Or.inl rfl
  · split
    · split
      · exact Or.inl rfl
      · split
        · exact Or.inl rfl
        · split
          · exact Or.inl rfl
          · exact Or.inr ⟨_, rfl⟩
    · split
      · exact Or.inl rfl
      · split
        · exact Or.inl rfl
        · split
          · exact Or.inl rfl
          · exact Or.inr ⟨_, rfl⟩

/-- Every run of `saveSurveyProgress` either leaves the stored state exactly
as it was, or reports success. -/
theorem saveSurveyProgress_cases (db : SurveyDB) (u : String) (sid : Nat)
    (ans : List AnswerInput) (t : Int) (f : Option Nat) :
    (saveSurveyProgress db u sid ans t f).1 = db
    ∨ ∃ rid, (saveSurveyProgress db u sid ans t f).2 = Except.ok rid := by
  unfold saveSurveyProgress
  dsimp only
  split
  · exact Or.inl rfl
  · split
    · split
      · exact Or.inl rfl
      · split
        · exact Or.inl rfl
        · exact Or.inr ⟨_, rfl⟩
    · split
      · exact Or.inl rfl
      · split
        · exact Or.inl rfl
        · split
          · exact Or.inl rfl
          · exact Or.inr ⟨_, rfl⟩

/-- The catch block of `submitSurveyResponse` issues ROLLBACK before
rethrowing: whenever the call reports an error (with no concurrent writer),
the stored state is exactly the state at BEGIN. -/
theorem submitSurveyResponse_error_rollback (db : SurveyDB) (u : String)
    (sid : Nat) (ans : List AnswerInput) (m : Option String) (t : Int)
    (f : Option Nat) (e : String)
    (h : (submitSurveyResponse db u sid ans m t none f).2 = Except.error e) :
    (submitSurveyResponse db u sid ans m t none f).1 = db := by
  rcases submitSurveyResponse_cases db u sid ans m t f with hc | ⟨rid, hok⟩
  · exact hc
  · rw [hok] at h
    exact Except.noConfusion h

/-- The catch block of `saveSurveyProgress` issues ROLLBACK before
rethrowing: whenever the call reports an error, the stored state is exactly
the state at BEGIN. -/
theorem saveSurveyProgress_error_rollback (db : SurveyDB) (u : String)
    (sid : Nat) (ans : List AnswerInput) (t : Int) (f : Option Nat)
    (e : String)
    (h : (saveSurveyProgress db u sid ans t f).2 = Except.error e) :
    (saveSurveyProgress db u sid ans t f).1 = db := by
  rcases saveSurveyProgress_cases db u sid ans t f with hc | ⟨rid, hok⟩
  · exact hc
  · rw [hok] at h
    exact Except.noConfusion h

/-- C2: submitting twice for the same authenticated (survey, user) pair
leaves exactly one stored response row; its answer rows equal the second
call's payload (after the `|| null` coercion), the old answer rows having
been deleted rather than merged; `is_complete` is true and `submitted_at`
is the second call's time. -/
theorem submit_twice_second_payload_wins (db : SurveyDB) (u : String)
    (sid : Nat) (a1 a2 : List AnswerInput) (m1 m2 : Option String)
    (t1 t2 : Int)
    (hone : (responsesFor db sid u).length ≤ 1)
    (hfresh : responsesFor db sid u = [] →
      ∀ q ∈ db.answers, q.response_id ≠ db.nextResponseId)
    (hnd1 : (a1.map AnswerInput.question_id).Nodup)
    (hr1 : ∀ a ∈ a1, ratingCheckOk (coerceAnswer a).rating_response = true)
    (hnd2 : (a2.map AnswerInput.question_id).Nodup)
    (hr2 : ∀ a ∈ a2, ratingCheckOk (coerceAnswer a).rating_response = true) :
    ∃ rid ro,
      (submitSurveyResponse (submitSurveyResponse db u sid a1 m1 t1
          none none).1 u sid a2 m2 t2 none none).2 = Except.ok rid
      ∧ responsesFor (submitSurveyResponse (submitSurveyResponse db u sid a1
          m1 t1 none none).1 u sid a2 m2 t2 none none).1 sid u = [ro]
      ∧ ro.id = rid ∧ ro.is_complete = true ∧ ro.submitted_at = some t2
      ∧ (answersFor (submitSurveyResponse (submitSurveyResponse db u sid a1
          m1 t1 none none).1 u sid a2 m2 t2 none none).1 rid).map answerVals
          = a2.map coerceAnswer := by
  obtain ⟨rid1, ro1, hok1, hresp1, hid1, hc1, hs1, hans1⟩ :=
    submitSurveyResponse_post db u sid a1 m1 t1 hone hfresh hnd1 hr1
  have hone1 : (responsesFor (submitSurveyResponse db u sid a1 m1 t1
      none none).1 sid u).length ≤ 1 := by
    rw [hresp1]
    simp
  have hfresh1 : responsesFor (submitSurveyResponse db u sid a1 m1 t1
      none none).1 sid u = [] →
      ∀ q ∈ (submitSurveyResponse db u sid a1 m1 t1 none none).1.answers,
        q.response_id ≠
          (submitSurveyResponse db u sid a1 m1 t1 none none).1.nextResponseId
      := by
    rw [hresp1]
    intro hcontra
    simp at hcontra
  exact submitSurveyResponse_post _ u sid a2 m2 t2 hone1 hfresh1 hnd2 hr2

/-- An empty survey database: one survey, no responses, no answers. -/
def surveyDB0 : SurveyDB :=
  { surveys := [{ id := 1, public_access_token := some "tok"
                  allow_public_access := true, status := "ACTIVE"
                  public_access_expires_at := none }]
    responses := [], answers := [], nextResponseId := 1, nextAnswerId := 1 }

theorem submit_twice_second_payload_wins_witness :
    ∃ rid ro,
      (submitSurveyResponse (submitSurveyResponse surveyDB0 "u1" 1
          [⟨7, some "first", none, none, none, none⟩] none 5
          none none).1 "u1" 1
          [⟨7, some "second", none, none, none, none⟩,
           ⟨8, none, none, none, none, some 4⟩] none 9 none none).2
        = Except.ok rid
      ∧ responsesFor (submitSurveyResponse (submitSurveyResponse surveyDB0
          "u1" 1 [⟨7, some "first", none, none, none, none⟩] none 5
          none none).1 "u1" 1
          [⟨7, some "second", none, none, none, none⟩,
           ⟨8, none, none, none, none, some 4⟩] none 9 none none).1 1 "u1"
        = [ro]
      ∧ ro.id = rid ∧ ro.is_complete = true ∧ ro.submitted_at = some 9
      ∧ (answersFor (submitSurveyResponse (submitSurveyResponse surveyDB0
          "u1" 1 [⟨7, some "first", none, none, none, none⟩] none 5
          none none).1 "u1" 1
          [⟨7, some "second", none, none, none, none⟩,
           ⟨8, none, none, none, none, some 4⟩] none 9 none none).1
            rid).map answerVals
        = [⟨7, some "second", none, none, none, none⟩,
           ⟨8, none, none, none, none, some 4⟩].map coerceAnswer :=
  submit_twice_second_payload_wins surveyDB0 "u1" 1
    [⟨7, some "first", none, none, none, none⟩]
    [⟨7, some "second", none, none, none, none⟩,
     ⟨8, none, none, none, none, some 4⟩] none none 5 9
    (by decide) (by intro h q hq; simp [surveyDB0] at hq) (by decide) (by decide)
    (by decide) (by decide)

/-- A database with no stored responses at all (and no surveys). -/
def raceDB : SurveyDB :=
  { surveys := [], responses := [], answers := []
    nextResponseId := 1, nextAnswerId := 1 }

/-- The row committed by the winning concurrent submit. -/
def raceRow : ResponseRow :=
  { id := 1, survey_id := 1, user_id := some "u1", started_at := 0
    submitted_at := some 0, is_complete := true, metadata := none
    respondent_email := none, respondent_name := none
    is_anonymous := false }

/-- C3 counterexample: with an empty table and a concurrent transaction
committing a row for the same (survey, user) pair between the existence
check and the INSERT, `submitSurveyResponse` reports the duplicate-key
error to its caller — the catch block only rolls back and rethrows, there
is no catch-and-retry-as-update, and the controller maps any such error to
a generic 500. -/
theorem submit_race_error_escapes :
    (submitSurveyResponse raceDB "u1" 1 [] none 5 (some raceRow) none).2
      = Except.error "duplicate key value violates unique constraint"
    ∧ (submitSurveyResponse raceDB "u1" 1 [] none 5 (some raceRow)
        none).1.responses = [raceRow] := by
  decide

/-- C3 (amended): when the existence check sees no row for the pair and a
concurrent transaction commits one before this call's INSERT, the partial
unique index rejects the INSERT; the engine does not catch the violation:
the transaction is rolled back and the duplicate-key error propagates to
the caller, with the winner's committed row as the only change. -/
theorem submit_race_rolls_back_and_rethrows (db : SurveyDB) (u : String)
    (sid : Nat) (ans : List AnswerInput) (m : Option String) (t : Int)
    (rr : ResponseRow)
    (hnone : db.responses.find? (fun r =>
      r.survey_id == sid && r.user_id == some u) = none)
    (hsid : rr.survey_id = sid) (huid : rr.user_id = some u) :
    submitSurveyResponse db u sid ans m t (some rr) none
      = ({ db with responses := db.responses ++ [rr] },
         Except.error "duplicate key value violates unique constraint") := by
  unfold submitSurveyResponse
  simp only [runStmt_none, withRace]
  try dsimp only
  rw [hnone]
  try dsimp only
  rw [if_pos (by simp [List.any_append, hsid, huid])]

theorem submit_race_rolls_back_and_rethrows_witness :
    submitSurveyResponse raceDB "u2" 1 [] none 5
        (some { id := 3, survey_id := 1, user_id := some "u2"
                started_at := 0, submitted_at := some 0, is_complete := true
                metadata := none, respondent_email := none
                respondent_name := none, is_anonymous := false }) none
      = ({ raceDB with responses := raceDB.responses ++
            [{ id := 3, survey_id := 1, user_id := some "u2"
               started_at := 0, submitted_at := some 0, is_complete := true
               metadata := none, respondent_email := none
               respondent_name := none, is_anonymous := false }] },
         Except.error "duplicate key value violates unique constraint") :=
  submit_race_rolls_back_and_rethrows raceDB "u2" 1 [] none 5 _
    (by decide) (by decide) (by decide)

/-- C7 (amended): the two authenticated multi-statement paths,
`submitSurveyResponse` and `saveSurveyProgress`, run inside one explicit
BEGIN/COMMIT transaction with ROLLBACK in the catch block, so whenever any
statement of the sequence fails the stored state is exactly what it was
before the call.  (`submitAnonymousResponse` has no such transaction; see
the accompanying non-atomicity counterexample.) -/
theorem authenticated_paths_atomic (db : SurveyDB) (u : String) (sid : Nat)
    (ans : List AnswerInput) (m : Option String) (t : Int) (f : Option Nat)
    (e : String) :
    ((submitSurveyResponse db u sid ans m t none f).2 = Except.error e →
      (submitSurveyResponse db u sid ans m t none f).1 = db)
    ∧ ((saveSurveyProgress db u sid ans t f).2 = Except.error e →
      (saveSurveyProgress db u sid ans t f).1 = db) :=
  ⟨submitSurveyResponse_error_rollback db u sid ans m t f e,
   saveSurveyProgress_error_rollback db u sid ans t f e⟩

theorem authenticated_paths_atomic_witness :
    (submitSurveyResponse surveyDB0 "u1" 1
        [⟨7, some "x", none, none, none, none⟩] none 5 none (some 2)).1
      = surveyDB0
    ∧ (saveSurveyProgress surveyDB0 "u1" 1
        [⟨7, some "x", none, none, none, none⟩] 5 (some 2)).1
      = surveyDB0 :=
  ⟨(authenticated_paths_atomic surveyDB0 "u1" 1
      [⟨7, some "x", none, none, none, none⟩] none 5 (some 2)
      "database error").1 (by decide),
   (authenticated_paths_atomic surveyDB0 "u1" 1
      [⟨7, some "x", none, none, none, none⟩] none 5 (some 2)
      "database error").2 (by decide)⟩

/-- C7 counterexample: `submitAnonymousResponse` runs without a
transaction.  With a valid token and two answers, a failure of the second
answer INSERT (statement 3) leaves a state that is neither the pre-call
state nor the state of a completed call: the new response row and the first
answer row persist without the second. -/
theorem anonymous_submit_not_atomic :
    (submitAnonymousResponse surveyDB0 "tok"
        [⟨1, some "x", none, none, none, none⟩,
         ⟨2, some "y", none, none, none, none⟩]
        none (some "a@b.cd") none 5 (some 3)).2
      = Except.error "database error"
    ∧ (submitAnonymousResponse surveyDB0 "tok"
        [⟨1, some "x", none, none, none, none⟩,
         ⟨2, some "y", none, none, none, none⟩]
        none (some "a@b.cd") none 5 (some 3)).1 ≠ surveyDB0
    ∧ (submitAnonymousResponse surveyDB0 "tok"
        [⟨1, some "x", none, none, none, none⟩,
         ⟨2, some "y", none, none, none, none⟩]
        none (some "a@b.cd") none 5 (some 3)).1
      ≠ (submitAnonymousResponse surveyDB0 "tok"
        [⟨1, some "x", none, none, none, none⟩,
         ⟨2, some "y", none, none, none, none⟩]
        none (some "a@b.cd") none 5 none).1 := by
  decide

theorem filter_not_filter {α : Type} (l : List α) (p : α → Bool) :
    (l.filter (fun x => !(p x))).filter p = [] := by
  rw [List.filter_eq_nil_iff]
  intro y hy
  have := (List.mem_filter.mp hy).2
  simp_all

theorem filter_not_idem {α : Type} (l : List α) (p : α → Bool) :
    (l.filter (fun x => !(p x))).filter (fun x => !(p x))
      = l.filter (fun x => !(p x)) :=
  List.filter_eq_self.mpr (fun _ hx => (List.mem_filter.mp hx).2)

/-- `insertAnswersUpsert` cannot hit a unique violation (ON CONFLICT DO
UPDATE absorbs it), so with no injected failure and in-range ratings it
always reports success. -/
theorem insertAnswersUpsert_no_error (answers : List AnswerInput) :
    ∀ (db : SurveyDB) (rid : Nat) (c : Nat),
      (∀ a ∈ answers,
        ratingCheckOk (coerceAnswer a).rating_response = true) →
      (insertAnswersUpsert db rid answers c none).2 = none := by
  induction answers with
  | nil => intro db rid c _; rfl
  | cons a rest ih =>
    intro db rid c hr
    unfold insertAnswersUpsert
    rw [runStmt_none]
    dsimp only
    rw [if_neg (by rw [hr a (by simp)]; simp)]
    exact ih _ _ _ (fun x hx => hr x (by simp [hx]))

theorem map_question_id_coerce (l : List AnswerInput) :
    (l.map coerceAnswer).map AnswerInput.question_id
      = l.map (fun a => a.question_id) := by
  induction l with
  | nil => rfl
  | cons a rest ih => simp [coerceAnswer_question_id, ih]

/-- C4: `saveSurveyProgress` deletes and reinserts only the answer rows
whose question ids appear in the call's payload; every other answer row is
left unchanged, and the response rows (hence `is_complete`) are not touched
at all.  When no response exists yet, a new one is created with
`is_complete = false` and no `submitted_at`. -/
theorem saveProgress_frame (db : SurveyDB) (u : String) (sid : Nat)
    (ans : List AnswerInput) (t : Int)
    (hnd : (ans.map AnswerInput.question_id).Nodup)
    (hr : ∀ a ∈ ans, ratingCheckOk (coerceAnswer a).rating_response = true) :
    (∀ r0, db.responses.find? (fun r =>
        r.survey_id == sid && r.user_id == some u) = some r0 →
      (saveSurveyProgress db u sid ans t none).2 = Except.ok r0.id
      ∧ (saveSurveyProgress db u sid ans t none).1.responses = db.responses
      ∧ (saveSurveyProgress db u sid ans t none).1.answers.filter
          (fun q => !(q.response_id == r0.id &&
            (ans.map (fun a => a.question_id)).contains q.question_id))
        = db.answers.filter
          (fun q => !(q.response_id == r0.id &&
            (ans.map (fun a => a.question_id)).contains q.question_id))
      ∧ ((saveSurveyProgress db u sid ans t none).1.answers.filter
          (fun q => q.response_id == r0.id &&
            (ans.map (fun a => a.question_id)).contains q.question_id)).map
              answerVals
        = ans.map coerceAnswer)
    ∧ (db.responses.find? (fun r =>
        r.survey_id == sid && r.user_id == some u) = none →
      ∃ rid row,
        (saveSurveyProgress db u sid ans t none).2 = Except.ok rid
        ∧ (saveSurveyProgress db u sid ans t none).1.responses
            = db.responses ++ [row]
        ∧ row.id = rid ∧ row.is_complete = false
        ∧ row.submitted_at = none) := by
  constructor
  · intro r0 h0
    unfold saveSurveyProgress
    simp only [runStmt_none]
    try dsimp only
    rw [h0]
    try dsimp only
    rw [insertAnswersUpsert_ok ans _ r0.id 2 ?_ hnd hr]
    · refine ⟨rfl, rfl, ?_, ?_⟩
      · show ((db.answers.filter _ ++ mkRows _ r0.id _).filter _) = _
        rw [List.filter_append, filter_not_idem]
        have hmk : (mkRows db.nextAnswerId r0.id
            (ans.map coerceAnswer)).filter
              (fun q => !(q.response_id == r0.id &&
                (ans.map (fun a => a.question_id)).contains q.question_id))
            = [] := by
          rw [List.filter_eq_nil_iff]
          intro x hx
          have h1 := mkRows_response_id _ _ _ _ hx
          have h2 := mkRows_question_id _ _ _ _ hx
          rw [map_question_id_coerce] at h2
          simp_all
        rw [hmk, List.append_nil]
      · show ((db.answers.filter _ ++ mkRows _ r0.id _).filter _).map
            answerVals = _
        rw [List.filter_append, filter_not_filter]
        have hmk : (mkRows db.nextAnswerId r0.id
            (ans.map coerceAnswer)).filter
              (fun q => q.response_id == r0.id &&
                (ans.map (fun a => a.question_id)).contains q.question_id)
            = mkRows db.nextAnswerId r0.id (ans.map coerceAnswer) := by
          rw [List.filter_eq_self]
          intro x hx
          have h1 := mkRows_response_id _ _ _ _ hx
          have h2 := mkRows_question_id _ _ _ _ hx
          rw [map_question_id_coerce] at h2
          simp_all
        rw [hmk, List.nil_append, mkRows_map_answerVals]
    · intro x hx
      rw [any_eq_false_iff]
      intro q hq
      have hmem := List.mem_filter.mp hq
      have hxq : x.question_id ∈ ans.map (fun a => a.question_id) :=
        List.mem_map_of_mem _ hx
      by_contra hcon
      rw [Bool.not_eq_false, Bool.and_eq_true] at hcon
      have hqx : q.question_id = x.question_id := by simpa using hcon.2
      have hcontains : ((ans.map (fun a => a.question_id)).contains
          q.question_id) = true := by
        rw [hqx]; simp [hxq]
      have hend := hmem.2
      rw [hcon.1, hcontains] at hend
      simp at hend
  · intro h0
    unfold saveSurveyProgress
    simp only [runStmt_none]
    try dsimp only
    rw [h0]
    try dsimp only
    rw [if_neg (by
      rw [show (db.responses.any (fun q =>
          q.survey_id == sid && q.user_id == some u)) = false from ?_]
      · simp
      · rw [any_eq_false_iff]
        intro x hx
        have := List.find?_eq_none.mp h0 x hx
        simpa using this)]
    rcases hins : insertAnswersUpsert
        { db with
            responses := db.responses ++
              [{ id := db.nextResponseId, survey_id := sid
                 user_id := some u, started_at := t, submitted_at := none
                 is_complete := false, metadata := none
                 respondent_email := none, respondent_name := none
                 is_anonymous := false }]
            nextResponseId := db.nextResponseId + 1 }
        db.nextResponseId ans 2 none with ⟨db2, oe⟩
    have hoe : oe = none := by
      have hne := insertAnswersUpsert_no_error ans
        { db with
            responses := db.responses ++
              [{ id := db.nextResponseId, survey_id := sid
                 user_id := some u, started_at := t, submitted_at := none
                 is_complete := false, metadata := none
                 respondent_email := none, respondent_name := none
                 is_anonymous := false }]
            nextResponseId := db.nextResponseId + 1 }
        db.nextResponseId 2 hr
      rw [hins] at hne
      exact hne
    subst hoe
    have hst := insertAnswersUpsert_state ans
      { db with
          responses := db.responses ++
            [{ id := db.nextResponseId, survey_id := sid
               user_id := some u, started_at := t, submitted_at := none
               is_complete := false, metadata := none
               respondent_email := none, respondent_name := none
               is_anonymous := false }]
          nextResponseId := db.nextResponseId + 1 }
      db.nextResponseId 2 none
    rw [hins] at hst
    exact ⟨db.nextResponseId, _, rfl, hst.1, rfl, rfl, rfl⟩

/-- A database holding one incomplete response for ("u1", survey 1) with
stored answers for questions 7 and 8. -/
def saveDB0 : SurveyDB :=
  { surveys := []
    responses := [{ id := 5, survey_id := 1, user_id := some "u1"
                    started_at := 0, submitted_at := none
                    is_complete := false, metadata := none
                    respondent_email := none, respondent_name := none
                    is_anonymous := false }]
    answers := [{ id := 1, response_id := 5, question_id := 7
                  text_response := some "old7", number_response := none
                  date_response := none, selected_option_ids := none
                  rating_response := none },
                { id := 2, response_id := 5, question_id := 8
                  text_response := some "old8", number_response := none
                  date_response := none, selected_option_ids := none
                  rating_response := none }]
    nextResponseId := 6, nextAnswerId := 3 }

theorem saveProgress_frame_witness :
    (saveSurveyProgress saveDB0 "u1" 1
        [⟨7, some "new7", none, none, none, none⟩] 9 none).2
      = Except.ok 5
    ∧ (saveSurveyProgress saveDB0 "u1" 1
        [⟨7, some "new7", none, none, none, none⟩] 9 none).1.responses
      = saveDB0.responses
    ∧ (saveSurveyProgress saveDB0 "u1" 1
        [⟨7, some "new7", none, none, none, none⟩] 9 none).1.answers.filter
        (fun q => !(q.response_id == (5 : Nat) &&
          ([⟨7, some "new7", none, none, none, none⟩].map
            (fun (a : AnswerInput) => a.question_id)).contains
              q.question_id))
      = saveDB0.answers.filter
        (fun q => !(q.response_id == (5 : Nat) &&
          ([⟨7, some "new7", none, none, none, none⟩].map
            (fun (a : AnswerInput) => a.question_id)).contains
              q.question_id))
    ∧ ((saveSurveyProgress saveDB0 "u1" 1
        [⟨7, some "new7", none, none, none, none⟩] 9 none).1.answers.filter
        (fun q => q.response_id == (5 : Nat) &&
          ([⟨7, some "new7", none, none, none, none⟩].map
            (fun (a : AnswerInput) => a.question_id)).contains
              q.question_id)).map answerVals
      = [⟨7, some "new7", none, none, none, none⟩].map coerceAnswer := by
  have h := (saveProgress_frame saveDB0 "u1" 1
      [⟨7, some "new7", none, none, none, none⟩] 9
      (by decide) (by decide)).1
      { id := 5, survey_id := 1, user_id := some "u1"
        started_at := 0, submitted_at := none, is_complete := false
        metadata := none, respondent_email := none
        respondent_name := none, is_anonymous := false }
      (by decide)
  exact h

/-! ## The `is_complete` flag is monotone across the engine's operations -/

/-- One call to any of the engine's write operations, with its arguments. -/
inductive EngineOp
  | submitOp (u : String) (sid : Nat) (ans : List AnswerInput)
      (m : Option String) (t : Int) (race : Option ResponseRow)
      (f : Option Nat)
  | saveOp (u : String) (sid : Nat) (ans : List AnswerInput) (t : Int)
      (f : Option Nat)
  | anonSubmitOp (token : String) (ans : List AnswerInput)
      (m : Option String) (email name : Option String) (t : Int)
      (f : Option Nat)
  | anonSaveOp (token : String) (m : Option String)
      (email name : Option String) (t : Int) (f : Option Nat)

/-- The stored state after one engine call. -/
def applyOp (db : SurveyDB) : EngineOp → SurveyDB
  | .submitOp u sid ans m t race f =>
      (submitSurveyResponse db u sid ans m t race f).1
  | .saveOp u sid ans t f => (saveSurveyProgress db u sid ans t f).1
  | .anonSubmitOp tok ans m e n t f =>
      (submitAnonymousResponse db tok ans m e n t f).1
  | .anonSaveOp tok m e n t f =>
      (saveAnonymousProgress db tok m e n t f).1

def EngineOp.isSubmit : EngineOp → Bool
  | .submitOp _ _ _ _ _ _ _ => true
  | _ => false

theorem withRace_responses (db : SurveyDB) (race : Option ResponseRow) :
    (withRace db race).responses = db.responses ++
      (match race with | none => [] | some r => [r]) := by
  cases race <;> simp [withRace]

theorem find?_append_some {α : Type} (l1 l2 : List α) (p : α → Bool)
    (x : α) (h : l1.find? p = some x) :
    (l1 ++ l2).find? p = some x := by
  rw [List.find?_append, h]
  rfl

theorem applySubmitUpdate_complete_mono (rid : Nat) (m : Option String)
    (t : Int) (q : ResponseRow) (h : q.is_complete = true) :
    (applySubmitUpdate rid m t q).is_complete = true := by
  unfold applySubmitUpdate
  split
  · rfl
  · exact h

/-- The response table after `submitSurveyResponse` is the prior table
(plus any concurrently committed row), possibly with one new row appended,
or mapped through the single-row UPDATE. -/
theorem submit_responses_shape (db : SurveyDB) (u : String) (sid : Nat)
    (ans : List AnswerInput) (m : Option String) (t : Int)
    (race : Option ResponseRow) (f : Option Nat) :
    (submitSurveyResponse db u sid ans m t race f).1.responses
      = (withRace db race).responses
    ∨ (∃ row, (submitSurveyResponse db u sid ans m t race f).1.responses
        = (withRace db race).responses ++ [row])
    ∨ (∃ rid0, (submitSurveyResponse db u sid ans m t race f).1.responses
        = ((withRace db race).responses).map (applySubmitUpdate rid0 m t))
    := by
  unfold submitSurveyResponse
  dsimp only
  split
  · exact Or.inl rfl
  · split
    · split
      · exact Or.inl rfl
      · split
        · exact Or.inl rfl
        · split
          · exact Or.inl rfl
          · rename_i db3 heq
            rename ResponseRow => rr
            refine Or.inr (Or.inr ⟨rr.id, ?_⟩)
            have hst := insertAnswersPlain_state ans
              { withRace db race with
                  answers := (withRace db race).answers.filter
                    (fun q => !(q.response_id == rr.id))
                  responses := ((withRace db race).responses).map
                    (applySubmitUpdate rr.id m t) } rr.id true 3 f
            rw [heq] at hst
            exact hst.1
    · split
      · exact Or.inl rfl
      · split
        · exact Or.inl rfl
        · split
          · exact Or.inl rfl
          · rename_i db3 heq
            refine Or.inr (Or.inl
              ⟨{ id := (withRace db race).nextResponseId
                 survey_id := sid, user_id := some u, started_at := t
                 submitted_at := some t, is_complete := true
                 metadata := m, respondent_email := none
                 respondent_name := none, is_anonymous := false }, ?_⟩)
            have hst := insertAnswersPlain_state ans
              { withRace db race with
                  responses := (withRace db race).responses ++
                    [{ id := (withRace db race).nextResponseId
                       survey_id := sid, user_id := some u, started_at := t
                       submitted_at := some t, is_complete := true
                       metadata := m, respondent_email := none
                       respondent_name := none, is_anonymous := false }]
                  nextResponseId := (withRace db race).nextResponseId + 1 }
              (withRace db race).nextResponseId true 2 f
            rw [heq] at hst
            exact hst.1

/-- The response table after `saveSurveyProgress` is the prior table,
possibly with one new (incomplete) row appended. -/
theorem save_responses_shape (db : SurveyDB) (u : String) (sid : Nat)
    (ans : List AnswerInput) (t : Int) (f : Option Nat) :
    (saveSurveyProgress db u sid ans t f).1.responses = db.responses
    ∨ ∃ row, (saveSurveyProgress db u sid ans t f).1.responses
        = db.responses ++ [row] := by
  unfold saveSurveyProgress
  dsimp only
  split
  · exact Or.inl rfl
  · split
    · split
      · exact Or.inl rfl
      · split
        · exact Or.inl rfl
        · rename_i db2 heq
          rename ResponseRow => rr
          refine Or.inl ?_
          have hst := insertAnswersUpsert_state ans
            { db with
                answers := db.answers.filter (fun q =>
                  !(q.response_id == rr.id &&
                    (ans.map (fun a => a.question_id)).contains
                      q.question_id)) } rr.id 2 f
          rw [heq] at hst
          exact hst.1
    · split
      · exact Or.inl rfl
      · split
        · exact Or.inl rfl
        · split
          · exact Or.inl rfl
          · rename_i db2 heq
            refine Or.inr
              ⟨{ id := db.nextResponseId, survey_id := sid
                 user_id := some u, started_at := t
                 submitted_at := none, is_complete := false
                 metadata := none, respondent_email := none
                 respondent_name := none, is_anonymous := false }, ?_⟩
            have hst := insertAnswersUpsert_state ans
              { db with
                  responses := db.responses ++
                    [{ id := db.nextResponseId, survey_id := sid
                       user_id := some u, started_at := t
                       submitted_at := none, is_complete := false
                       metadata := none, respondent_email := none
                       respondent_name := none, is_anonymous := false }]
                  nextResponseId := db.nextResponseId + 1 }
              db.nextResponseId 2 f
            rw [heq] at hst
            exact hst.1

/-- The response table after `submitAnonymousResponse` is the prior table,
possibly with one new row appended (existing rows are never modified). -/
theorem anonSubmit_responses_shape (db : SurveyDB) (tok : String)
    (ans : List AnswerInput) (m : Option String)
    (email name : Option String) (t : Int) (f : Option Nat) :
    (submitAnonymousResponse db tok ans m email name t f).1.responses
      = db.responses
    ∨ ∃ row, (submitAnonymousResponse db tok ans m email name t
        f).1.responses = db.responses ++ [row] := by
  unfold submitAnonymousResponse
  dsimp only
  split
  · exact Or.inl rfl
  · split
    · exact Or.inl rfl
    · rename_i s _
      split
      · exact Or.inl rfl
      · split
        · exact Or.inl rfl
        · split
          · exact Or.inl rfl
          · split <;>
            · rename_i db2 heq
              refine Or.inr
                ⟨{ id := db.nextResponseId, survey_id := s.id
                   user_id := none, started_at := t
                   submitted_at := some t, is_complete := true
                   metadata := some (m.getD emptyJsonObject)
                   respondent_email := email
                   respondent_name := name, is_anonymous := true }, ?_⟩
              have hst := insertAnswersPlain_state ans
                { db with
                    responses := db.responses ++
                      [{ id := db.nextResponseId, survey_id := s.id
                         user_id := none, started_at := t
                         submitted_at := some t, is_complete := true
                         metadata := some (m.getD emptyJsonObject)
                         respondent_email := email
                         respondent_name := name, is_anonymous := true }]
                    nextResponseId := db.nextResponseId + 1 }
                db.nextResponseId false 2 f
              rw [heq] at hst
              exact hst.1

/-- The response table after `saveAnonymousProgress` is the prior table,
possibly with one new (incomplete) row appended. -/
theorem anonSave_responses_shape (db : SurveyDB) (tok : String)
    (m : Option String) (email name : Option String) (t : Int)
    (f : Option Nat) :
    (saveAnonymousProgress db tok m email name t f).1.responses
      = db.responses
    ∨ ∃ row, (saveAnonymousProgress db tok m email name t f).1.responses
        = db.responses ++ [row] := by
  unfold saveAnonymousProgress
  split
  · exact Or.inl rfl
  · split
    · exact Or.inl rfl
    · split
      · exact Or.inl rfl
      · split
        · exact Or.inl rfl
        · exact Or.inr ⟨_, rfl⟩

/-- One engine call preserves a stored response row (found by id): the row
afterwards has the same `is_complete` unless the call was a full submit,
and a `true` flag is never reset. -/
theorem applyOp_step (db : SurveyDB) (op : EngineOp) (rid : Nat)
    (r : ResponseRow)
    (h : db.responses.find? (fun q => q.id == rid) = some r) :
    ∃ r', (applyOp db op).responses.find? (fun q => q.id == rid) = some r'
      ∧ (r.is_complete = true → r'.is_complete = true)
      ∧ (r'.is_complete = r.is_complete ∨ op.isSubmit = true) := by
  cases op with
  | submitOp u sid ans m t race f =>
    rcases submit_responses_shape db u sid ans m t race f with
      h1 | ⟨row, h2⟩ | ⟨rid0, h3⟩
    · refine ⟨r, ?_, fun hc => hc, Or.inl rfl⟩
      show (submitSurveyResponse db u sid ans m t race f).1.responses.find?
        _ = _
      rw [h1, withRace_responses]
      exact find?_append_some _ _ _ _ h
    · refine ⟨r, ?_, fun hc => hc, Or.inl rfl⟩
      show (submitSurveyResponse db u sid ans m t race f).1.responses.find?
        _ = _
      rw [h2, withRace_responses, List.append_assoc]
      exact find?_append_some _ _ _ _ h
    · refine ⟨applySubmitUpdate rid0 m t r, ?_,
        applySubmitUpdate_complete_mono rid0 m t r, Or.inr rfl⟩
      show (submitSurveyResponse db u sid ans m t race f).1.responses.find?
        _ = _
      rw [h3, List.find?_map]
      rw [show ((fun q : ResponseRow => q.id == rid) ∘
          applySubmitUpdate rid0 m t)
          = (fun q : ResponseRow => q.id == rid) from
        funext (fun x => by simp [Function.comp, applySubmitUpdate_id])]
      rw [withRace_responses, find?_append_some _ _ _ _ h]
      rfl
  | saveOp u sid ans t f =>
    rcases save_responses_shape db u sid ans t f with h1 | ⟨row, h2⟩
    · refine ⟨r, ?_, fun hc => hc, Or.inl rfl⟩
      show (saveSurveyProgress db u sid ans t f).1.responses.find? _ = _
      rw [h1, h]
    · refine ⟨r, ?_, fun hc => hc, Or.inl rfl⟩
      show (saveSurveyProgress db u sid ans t f).1.responses.find? _ = _
      rw [h2]
      exact find?_append_some _ _ _ _ h
  | anonSubmitOp tok ans m e n t f =>
    rcases anonSubmit_responses_shape db tok ans m e n t f with
      h1 | ⟨row, h2⟩
    · refine ⟨r, ?_, fun hc => hc, Or.inl rfl⟩
      show (submitAnonymousResponse db tok ans m e n t f).1.responses.find?
        _ = _
      rw [h1, h]
    · refine ⟨r, ?_, fun hc => hc, Or.inl rfl⟩
      show (submitAnonymousResponse db tok ans m e n t f).1.responses.find?
        _ = _
      rw [h2]
      exact find?_append_some _ _ _ _ h
  | anonSaveOp tok m e n t f =>
    rcases anonSave_responses_shape db tok m e n t f with h1 | ⟨row, h2⟩
    · refine ⟨r, ?_, fun hc => hc, Or.inl rfl⟩
      show (saveAnonymousProgress db tok m e n t f).1.responses.find? _ = _
      rw [h1, h]
    · refine ⟨r, ?_, fun hc => hc, Or.inl rfl⟩
      show (saveAnonymousProgress db tok m e n t f).1.responses.find? _ = _
      rw [h2]
      exact find?_append_some _ _ _ _ h

/-- C8: `is_complete` is monotone.  Once a stored response row is complete,
it stays complete across any sequence of engine operations (submit, save
progress, anonymous submit, anonymous save); and a single operation that
flips a row from incomplete to complete can only be a full authenticated
submit. -/
theorem is_complete_monotone (db : SurveyDB) (ops : List EngineOp)
    (op : EngineOp) (rid : Nat) :
    (∀ r, db.responses.find? (fun q => q.id == rid) = some r →
      r.is_complete = true →
      ∃ r', (ops.foldl applyOp db).responses.find? (fun q => q.id == rid)
          = some r' ∧ r'.is_complete = true)
    ∧ (∀ r r', db.responses.find? (fun q => q.id == rid) = some r →
      (applyOp db op).responses.find? (fun q => q.id == rid) = some r' →
      r.is_complete = false → r'.is_complete = true →
      op.isSubmit = true) := by
  constructor
  · intro r h hc
    induction ops generalizing db r with
    | nil => exact ⟨r, h, hc⟩
    | cons o os ih =>
      obtain ⟨r1, hfind1, hmono1, _⟩ := applyOp_step db o rid r h
      exact ih (applyOp db o) r1 hfind1 (hmono1 hc)
  · intro r r' h h' hf ht
    obtain ⟨r'', hfind'', _, hflag⟩ := applyOp_step db op rid r h
    rw [h'] at hfind''
    obtain rfl : r' = r'' := by simpa using hfind''
    rcases hflag with heq | hsub
    · rw [ht, hf] at heq
      exact absurd heq (by simp)
    · exact hsub

/-- One incomplete stored response for ("u1", survey 1). -/
def monoDB : SurveyDB :=
  { surveys := []
    responses := [{ id := 5, survey_id := 1, user_id := some "u1"
                    started_at := 0, submitted_at := none
                    is_complete := false, metadata := none
                    respondent_email := none, respondent_name := none
                    is_anonymous := false }]
    answers := [], nextResponseId := 6, nextAnswerId := 1 }

theorem is_complete_monotone_witness :
    (∃ r', (([EngineOp.saveOp "u1" 1 [] 11 none].foldl applyOp
        (applyOp monoDB (EngineOp.submitOp "u1" 1 [] none 9 none
          none))).responses.find? (fun q => q.id == 5)) = some r'
        ∧ r'.is_complete = true)
    ∧ (EngineOp.submitOp "u1" 1 [] none 9 none none).isSubmit = true :=
  ⟨(is_complete_monotone
      (applyOp monoDB (EngineOp.submitOp "u1" 1 [] none 9 none none))
      [EngineOp.saveOp "u1" 1 [] 11 none]
      (EngineOp.saveOp "u1" 1 [] 11 none) 5).1
      { id := 5, survey_id := 1, user_id := some "u1", started_at := 0
        submitted_at := some 9, is_complete := true, metadata := none
        respondent_email := none, respondent_name := none
        is_anonymous := false }
      (by decide) (by decide),
   (is_complete_monotone monoDB []
      (EngineOp.submitOp "u1" 1 [] none 9 none none) 5).2
      { id := 5, survey_id := 1, user_id := some "u1", started_at := 0
        submitted_at := none, is_complete := false, metadata := none
        respondent_email := none, respondent_name := none
        is_anonymous := false }
      { id := 5, survey_id := 1, user_id := some "u1", started_at := 0
        submitted_at := some 9, is_complete := true, metadata := none
        respondent_email := none, respondent_name := none
        is_anonymous := false }
      (by decide) (by decide) (by decide) (by decide)⟩

/-- Single successful anonymous submit: it always inserts one brand-new
response row (user_id NULL, is_anonymous true, is_complete true) plus the
payload's answer rows, with no lookup of any existing response. -/
theorem submitAnonymousResponse_post (db : SurveyDB) (tok : String)
    (ans : List AnswerInput) (m : Option String) (e : String)
    (n : Option String) (t : Int) (s : SurveyRow)
    (hs : db.surveys.find? (fun q => tokenMatches q tok t) = some s)
    (hv : isValidEmail e = true)
    (hnd : (ans.map AnswerInput.question_id).Nodup)
    (hr : ∀ a ∈ ans, ratingCheckOk a.rating_response = true)
    (hfr : ∀ q ∈ db.answers, q.response_id ≠ db.nextResponseId) :
    submitAnonymousResponse db tok ans m (some e) n t none
      = ({ db with
            responses := db.responses ++
              [{ id := db.nextResponseId, survey_id := s.id
                 user_id := none, started_at := t, submitted_at := some t
                 is_complete := true
                 metadata := some (m.getD emptyJsonObject)
                 respondent_email := some e, respondent_name := n
                 is_anonymous := true }]
            answers := db.answers ++
              mkRows db.nextAnswerId db.nextResponseId ans
            nextResponseId := db.nextResponseId + 1
            nextAnswerId := db.nextAnswerId + ans.length },
         Except.ok db.nextResponseId) := by
  unfold submitAnonymousResponse
  simp only [runStmt_none]
  try dsimp only
  rw [hs]
  try dsimp only
  rw [if_neg (by simp [hv])]
  rw [if_neg (by simp)]
  try dsimp only
  rw [insertAnswersPlain_ok ans _ db.nextResponseId false 2 ?_ hnd ?_]
  · have hmap : ans.map (fun a => if false = true then coerceAnswer a
        else a) = ans := by simp
    rw [hmap]
  · intro x hx
    rw [any_eq_false_iff]
    intro q hq
    have := hfr q hq
    simp_all
  · intro a ha
    simpa using hr a ha

/-- C9: every anonymous submission with a valid token inserts a brand-new
response row; two anonymous submissions to the same token (same or
different emails) produce two independent rows, never deduplicated or
upserted. -/
theorem anonymous_never_deduplicated (db : SurveyDB) (tok : String)
    (a1 a2 : List AnswerInput) (m1 m2 : Option String) (e1 e2 : String)
    (n1 n2 : Option String) (t1 t2 : Int) (s1 s2 : SurveyRow)
    (hs1 : db.surveys.find? (fun q => tokenMatches q tok t1) = some s1)
    (hs2 : db.surveys.find? (fun q => tokenMatches q tok t2) = some s2)
    (hv1 : isValidEmail e1 = true) (hv2 : isValidEmail e2 = true)
    (hnd1 : (a1.map AnswerInput.question_id).Nodup)
    (hr1 : ∀ a ∈ a1, ratingCheckOk a.rating_response = true)
    (hnd2 : (a2.map AnswerInput.question_id).Nodup)
    (hr2 : ∀ a ∈ a2, ratingCheckOk a.rating_response = true)
    (hfr : ∀ q ∈ db.answers, q.response_id < db.nextResponseId) :
    ∃ rid1 rid2 row1 row2,
      (submitAnonymousResponse db tok a1 m1 (some e1) n1 t1 none).2
        = Except.ok rid1
      ∧ (submitAnonymousResponse
          (submitAnonymousResponse db tok a1 m1 (some e1) n1 t1 none).1
          tok a2 m2 (some e2) n2 t2 none).2 = Except.ok rid2
      ∧ rid1 ≠ rid2
      ∧ (submitAnonymousResponse
          (submitAnonymousResponse db tok a1 m1 (some e1) n1 t1 none).1
          tok a2 m2 (some e2) n2 t2 none).1.responses
        = db.responses ++ [row1, row2]
      ∧ row1.id = rid1 ∧ row2.id = rid2
      ∧ row1.user_id = none ∧ row2.user_id = none
      ∧ row1.is_anonymous = true ∧ row2.is_anonymous = true
      ∧ row1.is_complete = true ∧ row2.is_complete = true := by
  have e1post := submitAnonymousResponse_post db tok a1 m1 e1 n1 t1 s1
    hs1 hv1 hnd1 hr1 (fun q hq => Nat.ne_of_lt (hfr q hq))
  have hfr1 : ∀ q ∈ (submitAnonymousResponse db tok a1 m1 (some e1) n1 t1
      none).1.answers,
      q.response_id ≠
        (submitAnonymousResponse db tok a1 m1 (some e1) n1 t1
          none).1.nextResponseId := by
    rw [e1post]
    intro q hq
    dsimp only at hq ⊢
    rcases List.mem_append.mp hq with hq1 | hq2
    · have := hfr q hq1
      omega
    · have := mkRows_response_id _ _ _ _ hq2
      omega
  have hs2' : (submitAnonymousResponse db tok a1 m1 (some e1) n1 t1
      none).1.surveys.find? (fun q => tokenMatches q tok t2) = some s2 := by
    rw [e1post]
    exact hs2
  have e2post := submitAnonymousResponse_post
    (submitAnonymousResponse db tok a1 m1 (some e1) n1 t1 none).1
    tok a2 m2 e2 n2 t2 s2 hs2' hv2 hnd2 hr2 hfr1
  refine ⟨db.nextResponseId, db.nextResponseId + 1,
    { id := db.nextResponseId, survey_id := s1.id, user_id := none
      started_at := t1, submitted_at := some t1, is_complete := true
      metadata := some (m1.getD emptyJsonObject)
      respondent_email := some e1, respondent_name := n1
      is_anonymous := true },
    { id := db.nextResponseId + 1, survey_id := s2.id, user_id := none
      started_at := t2, submitted_at := some t2, is_complete := true
      metadata := some (m2.getD emptyJsonObject)
      respondent_email := some e2, respondent_name := n2
      is_anonymous := true }, ?_, ?_, by omega, ?_, rfl, rfl, rfl, rfl,
    rfl, rfl, rfl, rfl⟩
  · rw [e1post]
  · rw [e2post, e1post]
  · rw [e2post, e1post]
    simp

theorem anonymous_never_deduplicated_witness :
    ∃ rid1 rid2 row1 row2,
      (submitAnonymousResponse surveyDB0 "tok"
          [⟨1, some "x", none, none, none, none⟩] none (some "a@b.cd")
          none 5 none).2 = Except.ok rid1
      ∧ (submitAnonymousResponse
          (submitAnonymousResponse surveyDB0 "tok"
            [⟨1, some "x", none, none, none, none⟩] none (some "a@b.cd")
            none 5 none).1
          "tok" [⟨1, some "y", none, none, none, none⟩] none
          (some "a@b.cd") none 7 none).2 = Except.ok rid2
      ∧ rid1 ≠ rid2
      ∧ (submitAnonymousResponse
          (submitAnonymousResponse surveyDB0 "tok"
            [⟨1, some "x", none, none, none, none⟩] none (some "a@b.cd")
            none 5 none).1
          "tok" [⟨1, some "y", none, none, none, none⟩] none
          (some "a@b.cd") none 7 none).1.responses
        = surveyDB0.responses ++ [row1, row2]
      ∧ row1.id = rid1 ∧ row2.id = rid2
      ∧ row1.user_id = none ∧ row2.user_id = none
      ∧ row1.is_anonymous = true ∧ row2.is_anonymous = true
      ∧ row1.is_complete = true ∧ row2.is_complete = true :=
  anonymous_never_deduplicated surveyDB0 "tok"
    [⟨1, some "x", none, none, none, none⟩]
    [⟨1, some "y", none, none, none, none⟩] none none "a@b.cd" "a@b.cd"
    none none 5 7
    { id := 1, public_access_token := some "tok"
      allow_public_access := true, status := "ACTIVE"
      public_access_expires_at := none }
    { id := 1, public_access_token := some "tok"
      allow_public_access := true, status := "ACTIVE"
      public_access_expires_at := none }
    (by decide) (by decide) (by decide) (by decide) (by decide)
    (by decide) (by decide) (by decide) (by decide)

/-- The plain insert loop with the `|| null` guards depends on the payload
only through its coerced image. -/
theorem insertAnswersPlain_coerce_congr (ansa : List AnswerInput) :
    ∀ (ansb : List AnswerInput),
      ansa.map coerceAnswer = ansb.map coerceAnswer →
      ∀ (db : SurveyDB) (rid : Nat) (c : Nat) (f : Option Nat),
        insertAnswersPlain db rid ansa true c f
          = insertAnswersPlain db rid ansb true c f := by
  induction ansa with
  | nil =>
    intro ansb h db rid c f
    cases ansb with
    | nil => rfl
    | cons b bs => simp at h
  | cons a rest ih =>
    intro ansb h db rid c f
    cases ansb with
    | nil => simp at h
    | cons b bs =>
      simp only [List.map_cons, List.cons.injEq] at h
      unfold insertAnswersPlain
      cases runStmt c f with
      | error e => rfl
      | ok u =>
        dsimp only
        rw [h.1]
        rw [ih bs h.2]
        rfl

/-- The upsert loop with the `|| null` guards depends on the payload only
through its coerced image. -/
theorem insertAnswersUpsert_coerce_congr (ansa : List AnswerInput) :
    ∀ (ansb : List AnswerInput),
      ansa.map coerceAnswer = ansb.map coerceAnswer →
      ∀ (db : SurveyDB) (rid : Nat) (c : Nat) (f : Option Nat),
        insertAnswersUpsert db rid ansa c f
          = insertAnswersUpsert db rid ansb c f := by
  induction ansa with
  | nil =>
    intro ansb h db rid c f
    cases ansb with
    | nil => rfl
    | cons b bs => simp at h
  | cons a rest ih =>
    intro ansb h db rid c f
    cases ansb with
    | nil => simp at h
    | cons b bs =>
      simp only [List.map_cons, List.cons.injEq] at h
      unfold insertAnswersUpsert
      cases runStmt c f with
      | error e => rfl
      | ok u =>
        dsimp only
        rw [h.1]
        rw [ih bs h.2]

theorem submitSurveyResponse_coerce_congr (db : SurveyDB) (u : String)
    (sid : Nat) (ansa ansb : List AnswerInput) (m : Option String) (t : Int)
    (race : Option ResponseRow) (f : Option Nat)
    (h : ansa.map coerceAnswer = ansb.map coerceAnswer) :
    submitSurveyResponse db u sid ansa m t race f
      = submitSurveyResponse db u sid ansb m t race f := by
  unfold submitSurveyResponse
  simp only [insertAnswersPlain_coerce_congr ansa ansb h]

theorem saveSurveyProgress_coerce_congr (db : SurveyDB) (u : String)
    (sid : Nat) (ansa ansb : List AnswerInput) (t : Int) (f : Option Nat)
    (h : ansa.map coerceAnswer = ansb.map coerceAnswer) :
    saveSurveyProgress db u sid ansa t f
      = saveSurveyProgress db u sid ansb t f := by
  have hq : ansa.map (fun a => a.question_id)
      = ansb.map (fun a => a.question_id) := by
    have h2 := congrArg (List.map AnswerInput.question_id) h
    rw [map_question_id_coerce, map_question_id_coerce] at h2
    exact h2
  unfold saveSurveyProgress
  simp only [insertAnswersUpsert_coerce_congr ansa ansb h, hq]

/-- C10: the `|| null` guards of `submitSurveyResponse` and
`saveSurveyProgress` coerce every JS-falsy answer value to NULL: a
`number_response` of 0, a `rating_response` of 0, and an empty-string
`text_response` are all stored as NULL, so such an answer is stored exactly
like — and is indistinguishable from — an answer carrying no value at
all. -/
theorem falsy_values_stored_as_null (db : SurveyDB) (u : String) (sid : Nat)
    (q : Nat) (m : Option String) (t : Int) :
    coerceAnswer ⟨q, some "", some 0, none, none, some 0⟩
      = coerceAnswer ⟨q, none, none, none, none, none⟩
    ∧ (coerceAnswer ⟨q, some "", some 0, none, none, some 0⟩).text_response
        = none
    ∧ (coerceAnswer
        ⟨q, some "", some 0, none, none, some 0⟩).number_response = none
    ∧ (coerceAnswer
        ⟨q, some "", some 0, none, none, some 0⟩).rating_response = none
    ∧ submitSurveyResponse db u sid
        [⟨q, some "", some 0, none, none, some 0⟩] m t none none
      = submitSurveyResponse db u sid [⟨q, none, none, none, none, none⟩]
          m t none none
    ∧ saveSurveyProgress db u sid
        [⟨q, some "", some 0, none, none, some 0⟩] t none
      = saveSurveyProgress db u sid [⟨q, none, none, none, none, none⟩]
          t none := by
  have hc : coerceAnswer ⟨q, some "", some 0, none, none, some 0⟩
      = coerceAnswer ⟨q, none, none, none, none, none⟩ := by
    simp [coerceAnswer, jsOrNullStr, jsOrNullInt, jsOrNullDate, jsOrNullArr]
  have hmap : [(⟨q, some "", some 0, none, none, some 0⟩ :
      AnswerInput)].map coerceAnswer
      = [(⟨q, none, none, none, none, none⟩ : AnswerInput)].map
          coerceAnswer := by
    simp [hc]
  exact ⟨hc, by simp [coerceAnswer, jsOrNullStr],
    by simp [coerceAnswer, jsOrNullInt],
    by simp [coerceAnswer, jsOrNullInt],
    submitSurveyResponse_coerce_congr db u sid _ _ m t none none hmap,
    saveSurveyProgress_coerce_congr db u sid _ _ t none hmap⟩

/-! ## Per-question statistics of getSurveyResponseStats -/

/-- `GROUP BY rating_response` over a list of stored (non-NULL) ratings:
one (rating, count) group per distinct value.  SQL leaves the group order
unspecified; this embedding returns groups in order of first occurrence. -/
def ratingGroups (rs : List Int) : List (Int × Nat) :=
  rs.foldl (fun acc r =>
    if acc.any (fun p => p.1 == r) then
      acc.map (fun p => if p.1 == r then (p.1, p.2 + 1) else p)
    else acc ++ [(r, 1)]) []

structure RatingStats where
  response_count : Nat
  average_rating : Option ℚ
  rating_distribution : Option (List (Int × Nat))
  deriving DecidableEq

/-- The RATING branch of `getSurveyResponseStats`
(surveyResponse.service.ts lines 325-348).  The SQL at lines 327-336
computes `AVG(rating_response)` while grouping BY `rating_response`, so
each returned row's `avg_rating` is the mean of a group whose members all
equal the group key, i.e. (key * count) / count = key exactly; the TS then
sets `average_rating = parseFloat(ratingResult.rows[0].avg_rating) || 0`,
i.e. the FIRST group's own average (`|| 0` is the identity on the
CHECK-constrained range 1-5).  `response_count` sums the per-group counts; the distribution
records (rating, count) for each group whose rating is truthy (non-zero).
The query does not restrict to complete responses. -/
def getRatingStatsForQuestion (db : SurveyDB) (qid : Nat) : RatingStats :=
  let ratings := (db.answers.filter
    (fun a => a.question_id == qid)).filterMap (fun a => a.rating_response)
  match ratingGroups ratings with
  | [] => { response_count := 0, average_rating := none
            rating_distribution := none }
  | g :: gs =>
    { response_count := ((g :: gs).map (fun p => p.2)).sum
      average_rating := some ((g.1 : ℚ))
      rating_distribution := some ((g :: gs).filter (fun p => !(p.1 == 0)))
    }

/-- Four stored ratings 3, 3, 4, 5 for question 7. -/
def ratingBugDB : SurveyDB :=
  { surveys := [], responses := []
    answers := [{ id := 1, response_id := 1, question_id := 7
                  text_response := none, number_response := none
                  date_response := none, selected_option_ids := none
                  rating_response := some 3 },
                { id := 2, response_id := 2, question_id := 7
                  text_response := none, number_response := none
                  date_response := none, selected_option_ids := none
                  rating_response := some 3 },
                { id := 3, response_id := 3, question_id := 7
                  text_response := none, number_response := none
                  date_response := none, selected_option_ids := none
                  rating_response := some 4 },
                { id := 4, response_id := 4, question_id := 7
                  text_response := none, number_response := none
                  date_response := none, selected_option_ids := none
                  rating_response := some 5 }]
    nextResponseId := 5, nextAnswerId := 5 }

/-- C5: evaluating the RATING branch on stored ratings {3, 3, 4, 5}.  The
histogram {3: 2, 4: 1, 5: 1} and the response count are as the claim says,
but the reported average is 3 — the first group's own rating — not the
count-weighted mean 15/4 = 3.75, because `AVG` is computed inside the
`GROUP BY` and only `rows[0]` is read. -/
theorem rating_stats_average_bug :
    (getRatingStatsForQuestion ratingBugDB 7).response_count = 4
    ∧ (getRatingStatsForQuestion ratingBugDB 7).rating_distribution
        = some [(3, 2), (4, 1), (5, 1)]
    ∧ (getRatingStatsForQuestion ratingBugDB 7).average_rating = some 3
    ∧ (getRatingStatsForQuestion ratingBugDB 7).average_rating
        ≠ some ((15 : ℚ) / 4) := by
  refine ⟨by decide, by decide, by decide, ?_⟩
  have h3 : (getRatingStatsForQuestion ratingBugDB 7).average_rating
      = some 3 := by decide
  rw [h3]
  intro hcon
  have : (3 : ℚ) = 15 / 4 := by injection hcon
  norm_num at this

structure OptionRow where
  id : Nat
  option_text : String
  deriving DecidableEq

structure OptionCount where
  text : String
  count : Nat
  percentage : ℚ
  deriving DecidableEq

structure ChoiceStats where
  response_count : Nat
  option_counts : List (Nat × OptionCount)
  deriving DecidableEq

/-- The MULTIPLE_CHOICE / CHECKBOX branch of `getSurveyResponseStats`
(surveyResponse.service.ts lines 364-392).  `stats.response_count` is
initialized to 0 (line 322); the per-option loop (lines 369-382) computes
each percentage as `stats.response_count > 0 ? (count /
stats.response_count) * 100 : 0` while `response_count` is still 0, and
only AFTER the loop (lines 384-391) is `response_count` set to the number
of rows whose `selected_option_ids` is non-NULL.  `rcBefore` is that
still-0 value read inside the loop.  Each option's count is the number of
rows whose array contains the option id (`$2 = ANY(selected_option_ids)`;
a NULL array matches nothing). -/
def getChoiceStatsForQuestion (db : SurveyDB) (qid : Nat)
    (options : List OptionRow) : ChoiceStats :=
  let rcBefore : Nat := 0
  let counts := options.map (fun o =>
    let c := (db.answers.filter (fun a => a.question_id == qid &&
        (a.selected_option_ids.getD []).contains o.id)).length
    (o.id, { text := o.option_text, count := c
             percentage :=
               if rcBefore > 0 then (c : ℚ) / (rcBefore : ℚ) * 100 else 0
             : OptionCount }))
  let rcAfter := (db.answers.filter (fun a => a.question_id == qid &&
      a.selected_option_ids.isSome)).length
  { response_count := rcAfter, option_counts := counts }

/-- Ten responses to question 9, all with a selection; option 1 chosen by
four of them, option 2 by the other six. -/
def choiceBugDB : SurveyDB :=
  { surveys := [], responses := []
    answers :=
      (List.range 10).map (fun i =>
        { id := i + 1, response_id := i + 1, question_id := 9
          text_response := none, number_response := none
          date_response := none
          selected_option_ids := some (if i < 4 then [1] else [2])
          rating_response := none })
    nextResponseId := 11, nextAnswerId := 11 }

/-- C6: evaluating the MULTIPLE_CHOICE branch on 10 responses with
selections where option 1 is chosen by 4 of them.  The counts (4 and 6)
and the total (10) are as the claim says, but every percentage is 0 — not
40 — because the percentage is computed from `response_count` before that
field is updated from its initial 0. -/
theorem choice_stats_percentage_bug :
    (getChoiceStatsForQuestion choiceBugDB 9
        [{ id := 1, option_text := "A" }, { id := 2, option_text := "B" }]
      ).response_count = 10
    ∧ (getChoiceStatsForQuestion choiceBugDB 9
        [{ id := 1, option_text := "A" }, { id := 2, option_text := "B" }]
      ).option_counts
      = [(1, { text := "A", count := 4, percentage := 0 }),
         (2, { text := "B", count := 6, percentage := 0 })]
    ∧ ((0 : ℚ) = 40) = False := by
  refine ⟨by decide, by decide, ?_⟩
  simp only [eq_iff_iff, iff_false]
  norm_num

end BenchmarkTours
